import Mathlib

/-!
# EmotionBasedGaming: the face tracker (`Source/HonoursProject/FaceTracker.{h,cpp}`)

A shallow embedding of the worker `FVideoProcessingThread` (frame processing,
rectangle clamping, the rule-based emotion classifier) and of the consumer
`AFaceTracker::Tick`, followed by the properties proved about them.

Conventions of the embedding.

* C++ `int` values are mathematical integers: detections lie inside a frame, so
  no `int` operation of the modelled code overflows.
* C++ `float` values are rationals and every `float` operation rounds its exact
  result to IEEE-754 binary32 (24-bit significand, round to nearest, ties to
  even), see `f32`.  The exponent range is not modelled (no overflow to
  infinity, no subnormals): the quantities of this program (pixel sizes, their
  averages and ratios, confidences) stay far inside the normal range.
* The cascade detectors, the capture device and the OpenCV image operations are
  external; they are parameters (`OpenCV`, `VideoCapture`).
* Locks are not modelled; each method is a sequential state transformer.
-/

namespace FaceTracker

/-! ## binary32 arithmetic -/

/-- Round a rational to the nearest integer, ties to the even integer. -/
def roundNE (y : ℚ) : ℤ :=
  if y - ⌊y⌋ < 1 / 2 then ⌊y⌋
  else if 1 / 2 < y - ⌊y⌋ then ⌊y⌋ + 1
  else if ⌊y⌋ % 2 = 0 then ⌊y⌋ else ⌊y⌋ + 1

/-- Spacing of the binary32 values in the binade of `x`: `2 ^ (⌊log₂ |x|⌋ - 23)`. -/
def ulp32 (x : ℚ) : ℚ := (2 : ℚ) ^ (Int.log 2 |x| - 23)

/-- Rounding of an exact value to binary32 (round to nearest, ties to even).
A literal such as `0.55f` of the source is `f32 0.55`. -/
def f32 (x : ℚ) : ℚ :=
  if x = 0 then 0 else roundNE (x / ulp32 x) * ulp32 x

/-- The `float` sum `a + b`. -/
def fadd (a b : ℚ) : ℚ := f32 (a + b)

/-- The `float` product `a * b`. -/
def fmul (a b : ℚ) : ℚ := f32 (a * b)

/-- The `float` quotient `a / b` (every division of the modelled code has a non-zero divisor). -/
def fdiv (a b : ℚ) : ℚ := f32 (a / b)

/-- Conversion `int → float`. -/
def ofInt (n : ℤ) : ℚ := f32 n

/-- Conversion `size_t → float`. -/
def ofSize (n : ℕ) : ℚ := f32 n

/-- Conversion `(int)x` of a `float`: truncation toward zero. -/
def toInt (x : ℚ) : ℤ := if 0 ≤ x then ⌊x⌋ else ⌈x⌉

/-! ## Unreal Engine `FMath` helpers -/

/-- Engine helper `FMath::Max(A, B)` on `int`: `(B < A) ? A : B`. -/
def FMath.Max (A B : ℤ) : ℤ := if B < A then A else B

/-- Engine helper `FMath::Min(A, B)` on `int`: `(A < B) ? A : B`. -/
def FMath.Min (A B : ℤ) : ℤ := if A < B then A else B

/-- Engine helper `FMath::Clamp(X, Min, Max)` on `float`: `X < Min ? Min : X < Max ? X : Max`. -/
def FMath.Clamp (X Min Max : ℚ) : ℚ := if X < Min then Min else if X < Max then X else Max

/-! ## Data model (`FaceTracker.h`) -/

/-- The enum `EFacialEmotion` (FaceTracker.h:26-36). -/
inductive EFacialEmotion where
  | Neutral
  | Happy
  | Sad
  | Angry
  | Surprised
  | Fearful
  | Disgusted
  deriving DecidableEq, Repr

/-- The OpenCV rectangle `cv::Rect`: `int` fields `x`, `y`, `width`, `height`. -/
structure Rect where
  x : ℤ
  y : ℤ
  width : ℤ
  height : ℤ
  deriving DecidableEq, Repr

/-- The OpenCV colour `cv::Scalar` (three channels used). -/
structure Scalar where
  v0 : ℕ
  v1 : ℕ
  v2 : ℕ
  deriving DecidableEq, Repr

/-- The OpenCV image `cv::Mat`: its size and a pixel payload the model never inspects. -/
structure Mat where
  cols : ℤ
  rows : ℤ
  data : List ℕ
  deriving DecidableEq, Repr

/-- The test `Mat::empty()`: no elements. -/
def Mat.empty (m : Mat) : Bool := decide (m.cols = 0 ∨ m.rows = 0 ∨ m.data = [])

/-- A default-constructed `cv::Mat` (no data). -/
def emptyMat : Mat := ⟨0, 0, []⟩

/-- The struct `FFacialEmotionData` (FaceTracker.h:39-56). -/
structure FFacialEmotionData where
  Emotion : EFacialEmotion
  Confidence : ℚ
  FaceCenter : ℚ × ℚ
  FaceSize : ℚ
  deriving DecidableEq, Repr

/-- The data members of `FVideoProcessingThread` (FaceTracker.h:123-152).  The device and
the three cascades are external and passed to the methods; the two mutexes are not modelled. -/
structure FVideoProcessingThread where
  CurrentFrame : Mat
  ProcessedFrame : Mat
  bRunning : Bool
  EmotionResults : List FFacialEmotionData
  HasSmile : Bool
  HasBothEyes : Bool
  HasOneEye : Bool
  HasNoEyes : Bool
  SmileWidth : ℚ
  SmileHeight : ℚ
  EyeAspectRatio : ℚ
  RelativeEyeSize : ℚ
  SmileIntensity : ℚ
  BrowIntensity : ℚ
  MouthAspectRatio : ℚ
  EmotionHistory : List EFacialEmotion

/-- The external image operations and detectors used by the worker.  Each detector field is
`detectMultiScale` with the fixed parameters of its call site. -/
structure OpenCV where
  flip : Mat → Mat
  cvtColor : Mat → Mat
  resize : Mat → Mat
  equalizeHist : Mat → Mat
  roi : Mat → Rect → Mat
  rectangle : Mat → Rect → Scalar → ℕ → Mat
  putText : Mat → String → ℤ × ℤ → ℚ → Scalar → ℕ → Mat
  FaceCascade : Mat → List Rect
  EyeCascade : Mat → List Rect
  SmileCascade : Mat → List Rect

/-- What the capture device answers during one loop iteration: `isOpened()` and the result
of `read(Frame)` (the returned flag and the frame written). -/
structure VideoCapture where
  isOpened : Bool
  readOk : Bool
  readFrame : Mat

/-! ## The classifier (`FVideoProcessingThread::DetectEmotion`, FaceTracker.cpp:435-534) -/

/-- Guard of the first branch (FaceTracker.cpp:497): `HasSmile && SmileIntensity >= 1`. -/
def rule1 (T : FVideoProcessingThread) : Bool :=
  T.HasSmile && decide (T.SmileIntensity ≥ ofInt 1)

/-- Guard of the second branch (FaceTracker.cpp:503): `HasBothEyes && RelativeEyeSize > 0.15f`. -/
def rule2 (T : FVideoProcessingThread) : Bool :=
  T.HasBothEyes && decide (T.RelativeEyeSize > f32 0.15)

/-- Guard of the third branch (FaceTracker.cpp:509): `(HasNoEyes || HasOneEye) && !HasSmile`. -/
def rule3 (T : FVideoProcessingThread) : Bool :=
  (T.HasNoEyes || T.HasOneEye) && !T.HasSmile

/-- Guard of the fourth branch (FaceTracker.cpp:515):
`HasBothEyes && !HasSmile && RelativeEyeSize < 0.12f`. -/
def rule4 (T : FVideoProcessingThread) : Bool :=
  T.HasBothEyes && !T.HasSmile && decide (T.RelativeEyeSize < f32 0.12)

/-- Guard of the fifth branch (FaceTracker.cpp:521):
`HasBothEyes && RelativeEyeSize > 0.13f && !HasSmile`. -/
def rule5 (T : FVideoProcessingThread) : Bool :=
  T.HasBothEyes && decide (T.RelativeEyeSize > f32 0.13) && !T.HasSmile

/-- The classification chain (FaceTracker.cpp:492-533), reading the scratch members of the
worker: the returned emotion and `OutConfidence`. -/
def classify (T : FVideoProcessingThread) : EFacialEmotion × ℚ :=
  if rule1 T then
    (EFacialEmotion.Happy,
      FMath.Clamp (fadd (f32 0.6) (fmul T.SmileIntensity (f32 0.1))) (f32 0.0) (f32 1.0))
  else if rule2 T then
    (EFacialEmotion.Surprised,
      FMath.Clamp (fadd (f32 0.55) (fmul T.RelativeEyeSize (f32 2.0))) (f32 0.0) (f32 1.0))
  else if rule3 T then
    (EFacialEmotion.Angry, f32 0.55)
  else if rule4 T then
    (EFacialEmotion.Sad, f32 0.5)
  else if rule5 T then
    (EFacialEmotion.Fearful, f32 0.5)
  else
    (EFacialEmotion.Neutral, f32 0.6)

/-- The accumulation loop `for (r : Rs) Acc += r.field;` started from `0.0f`. -/
def sumField (field : Rect → ℤ) (Rs : List Rect) : ℚ :=
  Rs.foldl (fun Acc r => fadd Acc (ofInt (field r))) (f32 0.0)

/-- The local `AvgEyeHeight` (FaceTracker.cpp:455-467). -/
def AvgEyeHeight (Eyes : List Rect) : ℚ :=
  if Eyes.length > 0 then fdiv (sumField Rect.height Eyes) (ofSize Eyes.length) else f32 0.0

/-- The local `AvgEyeWidth` (FaceTracker.cpp:456-467). -/
def AvgEyeWidth (Eyes : List Rect) : ℚ :=
  if Eyes.length > 0 then fdiv (sumField Rect.width Eyes) (ofSize Eyes.length) else f32 0.0

/-- The value stored in `RelativeEyeSize` (FaceTracker.cpp:473). -/
def relativeEyeSize (Eyes : List Rect) (FaceRect : Rect) : ℚ :=
  if FaceRect.height > 0 then fdiv (AvgEyeHeight Eyes) (ofInt FaceRect.height) else f32 0.0

/-- The feature phase of `DetectEmotion` (FaceTracker.cpp:448-490): the worker after the
scratch members have been written from the eye and smile detections. -/
def calcFeatures (T : FVideoProcessingThread) (Eyes Smiles : List Rect) (FaceRect : Rect) :
    FVideoProcessingThread :=
  let T := { T with
    HasSmile := decide (Smiles.length > 0)
    HasBothEyes := decide (Eyes.length ≥ 2)
    HasOneEye := decide (Eyes.length = 1)
    HasNoEyes := decide (Eyes.length = 0) }
  let T := { T with
    EyeAspectRatio :=
      if AvgEyeWidth Eyes > ofInt 0 then fdiv (AvgEyeHeight Eyes) (AvgEyeWidth Eyes)
      else f32 0.0 }
  let T := { T with RelativeEyeSize := relativeEyeSize Eyes FaceRect }
  let T := { T with
    SmileWidth :=
      if T.HasSmile then fdiv (sumField Rect.width Smiles) (ofSize Smiles.length)
      else f32 0.0
    SmileHeight :=
      if T.HasSmile then fdiv (sumField Rect.height Smiles) (ofSize Smiles.length)
      else f32 0.0 }
  { T with SmileIntensity := ofSize Smiles.length }

/-- The body of `DetectEmotion` after the two detector calls (FaceTracker.cpp:448-533), as a
function of the detections: the worker afterwards, the returned emotion, `OutConfidence`. -/
def DetectEmotionFrom (T : FVideoProcessingThread) (Eyes Smiles : List Rect) (FaceRect : Rect) :
    FVideoProcessingThread × EFacialEmotion × ℚ :=
  let T := calcFeatures T Eyes Smiles FaceRect
  (T, (classify T).1, (classify T).2)

/-- The smile search rectangle `LowerFaceRect` (FaceTracker.cpp:442); `/` on `int` truncates. -/
def LowerFaceRect (FaceROI : Mat) : Rect :=
  ⟨0, Int.tdiv FaceROI.rows 2, FaceROI.cols, Int.tdiv FaceROI.rows 2⟩

/-- The method `DetectEmotion(FaceROI, FaceRect, OutConfidence)` (FaceTracker.cpp:435-534). -/
def DetectEmotion (cv : OpenCV) (T : FVideoProcessingThread) (FaceROI : Mat) (FaceRect : Rect) :
    FVideoProcessingThread × EFacialEmotion × ℚ :=
  let Eyes := cv.EyeCascade FaceROI
  let LowerFaceROI := cv.roi FaceROI (LowerFaceRect FaceROI)
  let Smiles := cv.SmileCascade LowerFaceROI
  DetectEmotionFrom T Eyes Smiles FaceRect

/-- The worker state in which the feature phase found `n` smile detections, `e` eye
detections and stored `r` in `RelativeEyeSize`: the members read by `classify`. -/
def summary (T : FVideoProcessingThread) (n e : ℕ) (r : ℚ) : FVideoProcessingThread :=
  { T with
    HasSmile := decide (n > 0)
    HasBothEyes := decide (e ≥ 2)
    HasOneEye := decide (e = 1)
    HasNoEyes := decide (e = 0)
    RelativeEyeSize := r
    SmileIntensity := ofSize n }

/-- The ordered rule list of the specification (section 4.3), first match wins, evaluated in
the `float` arithmetic of the program. -/
def specRules (n e : ℕ) (r : ℚ) : EFacialEmotion × ℚ :=
  if n ≥ 1 then
    (EFacialEmotion.Happy, FMath.Clamp (fadd (f32 0.6) (fmul (f32 0.1) (ofSize n))) 0 1)
  else if e ≥ 2 ∧ r > f32 0.15 then
    (EFacialEmotion.Surprised, FMath.Clamp (fadd (f32 0.55) (fmul (f32 2.0) r)) 0 1)
  else if e ≤ 1 then (EFacialEmotion.Angry, f32 0.55)
  else if e ≥ 2 ∧ r < f32 0.12 then (EFacialEmotion.Sad, f32 0.5)
  else if e ≥ 2 ∧ r > f32 0.13 then (EFacialEmotion.Fearful, f32 0.5)
  else (EFacialEmotion.Neutral, f32 0.6)

/-! ## The processing loop (`Run`, `ProcessFrame`, FaceTracker.cpp:239-433) -/

/-- The rectangle `ScaledFace` of `ProcessFrame` (FaceTracker.cpp:338-346): the detection
doubled, then clamped against the `cols` and `rows` of `GrayFrame`. -/
def ScaledFace (cols rows : ℤ) (Face : Rect) : Rect :=
  let S : Rect := ⟨Face.x * 2, Face.y * 2, Face.width * 2, Face.height * 2⟩
  let S := { S with x := FMath.Max 0 S.x }
  let S := { S with y := FMath.Max 0 S.y }
  let S := { S with width := FMath.Min S.width (cols - S.x) }
  { S with height := FMath.Min S.height (rows - S.y) }

/-- The `switch (Emotion)` of `ProcessFrame` (FaceTracker.cpp:375-405): colour and label. -/
def emotionStyle : EFacialEmotion → Scalar × String
  | EFacialEmotion.Happy => (⟨0, 255, 0⟩, "Happy")
  | EFacialEmotion.Sad => (⟨255, 0, 0⟩, "Sad")
  | EFacialEmotion.Angry => (⟨0, 0, 255⟩, "Angry")
  | EFacialEmotion.Surprised => (⟨255, 255, 0⟩, "Surprised")
  | EFacialEmotion.Fearful => (⟨255, 0, 255⟩, "Fearful")
  | EFacialEmotion.Disgusted => (⟨128, 0, 128⟩, "Disgusted")
  | EFacialEmotion.Neutral => (⟨128, 128, 128⟩, "Neutral")

/-- The record `EmotionData` built for a face (FaceTracker.cpp:361-368). -/
def emotionData (Emotion : EFacialEmotion) (Confidence : ℚ) (S : Rect) : FFacialEmotionData :=
  { Emotion := Emotion
    Confidence := Confidence
    FaceCenter := (fadd (ofInt S.x) (fdiv (ofInt S.width) (f32 2.0)),
                   fadd (ofInt S.y) (fdiv (ofInt S.height) (f32 2.0)))
    FaceSize := ofInt S.width }

/-- The drawing calls for a face (FaceTracker.cpp:407-419). -/
def annotate (cv : OpenCV) (Frame : Mat) (S : Rect) (Emotion : EFacialEmotion)
    (Confidence : ℚ) : Mat :=
  let Color := (emotionStyle Emotion).1
  let EmotionText := (emotionStyle Emotion).2
  let Frame := cv.rectangle Frame S Color 3
  let Frame := cv.putText Frame EmotionText (S.x, S.y - 10) 0.9 Color 2
  let ConfidenceText := "Conf: " ++ toString (toInt (fmul Confidence (ofInt 100))) ++ "%"
  cv.putText Frame ConfidenceText (S.x, S.y + S.height + 25) 0.6 Color 2

/-- The variables carried by the face loop of `ProcessFrame`: the worker (its scratch members
are rewritten by every `DetectEmotion`), `NewEmotions` and the annotated `Frame`. -/
structure FaceLoop where
  T : FVideoProcessingThread
  NewEmotions : List FFacialEmotionData
  Frame : Mat

/-- One pass of the loop `for (i < Faces.size())` of `ProcessFrame` (FaceTracker.cpp:336-420). -/
def faceBody (cv : OpenCV) (GrayFrame : Mat) (L : FaceLoop) (Face : Rect) : FaceLoop :=
  let S := ScaledFace GrayFrame.cols GrayFrame.rows Face
  if S.width ≤ 0 ∨ S.height ≤ 0 then L
  else
    let FaceROI := cv.roi GrayFrame S
    let D := DetectEmotion cv L.T FaceROI S
    { T := D.1
      NewEmotions := L.NewEmotions ++ [emotionData D.2.1 D.2.2 S]
      Frame := annotate cv L.Frame S D.2.1 D.2.2 }

/-- The method `ProcessFrame()` (FaceTracker.cpp:304-433). -/
def ProcessFrame (cv : OpenCV) (cap : VideoCapture) (T : FVideoProcessingThread) :
    FVideoProcessingThread :=
  if !cap.readOk then T
  else if cap.readFrame.empty then T
  else
    let Frame := cv.flip cap.readFrame
    let GrayFrame := cv.cvtColor Frame
    let SmallFrame := cv.equalizeHist (cv.resize GrayFrame)
    let Faces := cv.FaceCascade SmallFrame
    let L := Faces.foldl (faceBody cv GrayFrame) ⟨T, [], Frame⟩
    { L.T with EmotionResults := L.NewEmotions, ProcessedFrame := L.Frame }

/-- One iteration of the `while (bRunning)` loop of `Run()` (FaceTracker.cpp:241-272); the
pointer `VideoCapture` may be null.  The on-screen debug messages and the sleep do not touch
the worker and are left out. -/
def RunIteration (cv : OpenCV) (VideoCapture : Option VideoCapture)
    (T : FVideoProcessingThread) : FVideoProcessingThread :=
  match VideoCapture with
  | some cap => if cap.isOpened then ProcessFrame cv cap T else T
  | none => T

/-- The method `Run()` (FaceTracker.cpp:239-275) over the device answers of successive
iterations. -/
def Run (cv : OpenCV) : List (Option VideoCapture) → FVideoProcessingThread →
    FVideoProcessingThread
  | [], T => T
  | c :: cs, T => if T.bRunning then Run cv cs (RunIteration cv c T) else T

/-- The method `Stop()` (FaceTracker.cpp:277-280). -/
def Stop (T : FVideoProcessingThread) : FVideoProcessingThread := { T with bRunning := false }

/-- The method `GetProcessedFrame(OutFrame)` (FaceTracker.cpp:287-296): the returned flag and
the content of `OutFrame` afterwards. -/
def GetProcessedFrame (T : FVideoProcessingThread) (OutFrame : Mat) : Bool × Mat :=
  if !T.ProcessedFrame.empty then (true, T.ProcessedFrame) else (false, OutFrame)

/-- The method `GetEmotionData()` (FaceTracker.cpp:298-302). -/
def GetEmotionData (T : FVideoProcessingThread) : List FFacialEmotionData := T.EmotionResults

/-! ## The consumer (`AFaceTracker::Tick`, FaceTracker.cpp:107-148) -/

/-- The members of `AFaceTracker` used by `Tick`.  `ProcessingThread` records whether the
pointer is non-null; `VideoTexture` is `none` for a null pointer and otherwise holds the frame
the texture was last updated from. -/
structure AFaceTracker where
  ProcessingThread : Bool
  VideoTexture : Option Mat
  TargetFPS : ℤ
  TimeSinceLastUpdate : ℚ
  DetectedEmotions : List FFacialEmotionData
  LastDetectedEmotion : EFacialEmotion

/-- The method `UpdateTexture(Frame)` (FaceTracker.cpp:193-216); the pixel conversion and the
upload are not modelled. -/
def UpdateTexture (A : AFaceTracker) (Frame : Mat) : AFaceTracker :=
  if A.VideoTexture.isNone || Frame.empty then A else { A with VideoTexture := some Frame }

/-- What one call of `Tick` did: the tracker afterwards, the list returned by
`GetEmotionData` when the call got that far, and the arguments of `OnEmotionDetected` when
the event was raised. -/
structure TickResult where
  A : AFaceTracker
  polled : Option (List FFacialEmotionData)
  OnEmotionDetected : Option (EFacialEmotion × ℚ)

/-- The test `TimeSinceLastUpdate < 1.0f / TargetFPS` (FaceTracker.cpp:119-120); the quotient
is `+inf` when `TargetFPS` is `0`. -/
def belowUpdateInterval (A : AFaceTracker) : Bool :=
  if A.TargetFPS = 0 then true
  else decide (A.TimeSinceLastUpdate < fdiv (f32 1.0) (ofInt A.TargetFPS))

/-- The polling part of `Tick` (FaceTracker.cpp:125-135): the timer is reset, the texture is
updated when the worker has a frame, and `DetectedEmotions` receives `GetEmotionData()`. -/
def pollWorker (A : AFaceTracker) (W : FVideoProcessingThread) : AFaceTracker :=
  let A := { A with TimeSinceLastUpdate := f32 0.0 }
  let G := GetProcessedFrame W emptyMat
  let A := if G.1 then UpdateTexture A G.2 else A
  { A with DetectedEmotions := GetEmotionData W }

/-- The last part of `Tick` (FaceTracker.cpp:137-146): the event is raised when the list is
not empty and the emotion of its first element differs from `LastDetectedEmotion`. -/
def notifyChange (A : AFaceTracker) : TickResult :=
  match A.DetectedEmotions with
  | [] => ⟨A, some [], none⟩
  | E :: Es =>
    let CurrentEmotion := E.Emotion
    if CurrentEmotion ≠ A.LastDetectedEmotion then
      ⟨{ A with LastDetectedEmotion := CurrentEmotion }, some (E :: Es),
        some (CurrentEmotion, E.Confidence)⟩
    else ⟨A, some (E :: Es), none⟩

/-- The method `Tick(DeltaTime)` (FaceTracker.cpp:107-148), run against the worker state `W`
current at the time of the call. -/
def Tick (A : AFaceTracker) (W : FVideoProcessingThread) (DeltaTime : ℚ) : TickResult :=
  if !A.ProcessingThread || A.VideoTexture.isNone then ⟨A, none, none⟩
  else
    let A := { A with TimeSinceLastUpdate := fadd A.TimeSinceLastUpdate DeltaTime }
    if belowUpdateInterval A then ⟨A, none, none⟩
    else notifyChange (pollWorker A W)

/-- Successive calls of `Tick`, each with the worker state and `DeltaTime` of its moment: the
tracker afterwards and what each call did, in order. -/
def Ticks : AFaceTracker → List (FVideoProcessingThread × ℚ) →
    AFaceTracker × List TickResult
  | A, [] => (A, [])
  | A, (W, dt) :: rest =>
    let R := Tick A W dt
    let P := Ticks R.A rest
    (P.1, R :: P.2)

/-- The local `GrayFrame` of `ProcessFrame` for a captured frame (FaceTracker.cpp:320-324). -/
def GrayFrameOf (cv : OpenCV) (Frame : Mat) : Mat := cv.cvtColor (cv.flip Frame)

/-- The local `Faces` of `ProcessFrame` for a captured frame (FaceTracker.cpp:326-332). -/
def FacesOf (cv : OpenCV) (Frame : Mat) : List Rect :=
  cv.FaceCascade (cv.equalizeHist (cv.resize (GrayFrameOf cv Frame)))

/-- The clamped rectangles of the detected faces that have positive width and height, in
detection order. -/
def keptFaces (G : Mat) (Faces : List Rect) : List Rect :=
  (Faces.map (ScaledFace G.cols G.rows)).filter (fun S => decide (0 < S.width ∧ 0 < S.height))

/-- The estimate of one face: emotion and confidence from `DetectEmotion` on the sub-image
of the clamped rectangle `S`, centre and size from `S`. -/
def faceEntry (cv : OpenCV) (G : Mat) (T : FVideoProcessingThread) (S : Rect) :
    FFacialEmotionData :=
  emotionData (DetectEmotion cv T (cv.roi G S) S).2.1 (DetectEmotion cv T (cv.roi G S) S).2.2 S

/-- The five guards of the chain of `classify`, each evaluated on its own. -/
def guards (T : FVideoProcessingThread) : List Bool :=
  [rule1 T, rule2 T, rule3 T, rule4 T, rule5 T]

/-- The number of guards of the chain that are true. -/
def guardsTrue (T : FVideoProcessingThread) : ℕ := (guards T).count true

/-- The doubling of a detection, `ScaledFace` as constructed (FaceTracker.cpp:339-340). -/
def doubled (Face : Rect) : Rect :=
  ⟨Face.x * 2, Face.y * 2, Face.width * 2, Face.height * 2⟩

/-- The clamp of `ProcessFrame` (FaceTracker.cpp:343-346) applied to a rectangle. -/
def clampRect (cols rows : ℤ) (S : Rect) : Rect :=
  let S := { S with x := FMath.Max 0 S.x }
  let S := { S with y := FMath.Max 0 S.y }
  let S := { S with width := FMath.Min S.width (cols - S.x) }
  { S with height := FMath.Min S.height (rows - S.y) }

/-- The rectangle of a frame of `cols` by `rows` pixels. -/
def frameRect (cols rows : ℤ) : Rect := ⟨0, 0, cols, rows⟩

/-- A pixel `(px, py)` lies in a rectangle: `x ≤ px < x + width` and `y ≤ py < y + height`. -/
def Rect.contains (R : Rect) (px py : ℤ) : Prop :=
  R.x ≤ px ∧ px < R.x + R.width ∧ R.y ≤ py ∧ py < R.y + R.height

/-- A rectangle without pixels: `width ≤ 0` or `height ≤ 0`. -/
def Rect.isEmpty (R : Rect) : Prop := R.width ≤ 0 ∨ R.height ≤ 0

/-- The intersection of two rectangles: the larger of the origins and the smaller of the far
edges (its width or height is `≤ 0` when the rectangles do not meet). -/
def Rect.inter (A B : Rect) : Rect :=
  ⟨max A.x B.x, max A.y B.y,
   min (A.x + A.width) (B.x + B.width) - max A.x B.x,
   min (A.y + A.height) (B.y + B.height) - max A.y B.y⟩

/-- A rectangle lies inside a frame of `cols` by `rows` pixels. -/
def Rect.inside (R : Rect) (cols rows : ℤ) : Prop :=
  0 ≤ R.x ∧ 0 ≤ R.y ∧ R.x + R.width ≤ cols ∧ R.y + R.height ≤ rows

instance (R : Rect) (px py : ℤ) : Decidable (R.contains px py) := by
  unfold Rect.contains; infer_instance

instance (R : Rect) : Decidable R.isEmpty := by
  unfold Rect.isEmpty; infer_instance

instance (R : Rect) (cols rows : ℤ) : Decidable (R.inside cols rows) := by
  unfold Rect.inside; infer_instance

/-! ## Concrete inputs used by the examples -/

/-- A worker as left by its constructor: nothing published yet, `bRunning` set. -/
def initialWorker : FVideoProcessingThread :=
  { CurrentFrame := emptyMat
    ProcessedFrame := emptyMat
    bRunning := true
    EmotionResults := []
    HasSmile := false
    HasBothEyes := false
    HasOneEye := false
    HasNoEyes := false
    SmileWidth := 0
    SmileHeight := 0
    EyeAspectRatio := 0
    RelativeEyeSize := 0
    SmileIntensity := 0
    BrowIntensity := 0
    MouthAspectRatio := 0
    EmotionHistory := [] }

/-- A face rectangle of 200 by 200 pixels inside a 640 by 480 frame. -/
def face200 : Rect := ⟨220, 140, 200, 200⟩

/-- Two eye detections of `h` by `h` pixels, in face coordinates. -/
def eyesOf (h : ℤ) : List Rect := [⟨40, 50, h, h⟩, ⟨120, 50, h, h⟩]

/-- One smile detection of 100 by 50 pixels, in lower-face coordinates. -/
def oneSmile : List Rect := [⟨50, 30, 100, 50⟩]

/-- A frame of 640 by 480 pixels. -/
def sampleFrame : Mat := ⟨640, 480, [0]⟩

/-- Image operations that keep the frame, a face detector that reports one face inside the
half-size frame and one beyond its right edge, and eye and smile detectors that find
nothing. -/
def sampleCV : OpenCV :=
  { flip := fun m => m
    cvtColor := fun m => m
    resize := fun m => ⟨m.cols / 2, m.rows / 2, m.data⟩
    equalizeHist := fun m => m
    roi := fun m r => ⟨r.width, r.height, m.data⟩
    rectangle := fun m _ _ _ => m
    putText := fun m _ _ _ _ _ => m
    FaceCascade := fun _ => [⟨110, 70, 100, 100⟩, ⟨330, 10, 20, 20⟩]
    EyeCascade := fun _ => []
    SmileCascade := fun _ => [] }

/-- An opened device that delivers `sampleFrame`. -/
def sampleCapture : VideoCapture := ⟨true, true, sampleFrame⟩

/-- An opened device whose read succeeds with an empty frame. -/
def emptyCapture : VideoCapture := ⟨true, true, emptyMat⟩

/-- An estimate with the given emotion and confidence. -/
def sampleEstimate (E : EFacialEmotion) (c : ℚ) : FFacialEmotionData :=
  { Emotion := E, Confidence := c, FaceCenter := (320, 240), FaceSize := 200 }

/-- A worker whose published list is one estimate. -/
def workerWith (E : EFacialEmotion) (c : ℚ) : FVideoProcessingThread :=
  { initialWorker with EmotionResults := [sampleEstimate E c] }

/-- A tracker after `BeginPlay` with a target rate of one update per second. -/
def sampleTracker : AFaceTracker :=
  { ProcessingThread := true
    VideoTexture := some emptyMat
    TargetFPS := 1
    TimeSinceLastUpdate := 0
    DetectedEmotions := []
    LastDetectedEmotion := EFacialEmotion.Neutral }

/-- A face region of 100 by 101 pixels: the clamped rectangle of the detection
`(100, 190, 50, 60)` in a frame of 640 by 481 pixels. -/
def oddFaceROI : Mat := ⟨100, 101, [0]⟩

/-- A face region of 200 by 200 pixels. -/
def evenFaceROI : Mat := ⟨200, 200, [0]⟩

/-- The face loop of `ProcessFrame` at its start on `sampleFrame`. -/
def sampleLoop : FaceLoop := ⟨initialWorker, [], sampleFrame⟩

/-! ## Properties of the binary32 rounding -/

theorem floor_le_roundNE (y : ℚ) : ⌊y⌋ ≤ roundNE y := by
  unfold roundNE
  split_ifs <;> omega

theorem roundNE_le_floor_succ (y : ℚ) : roundNE y ≤ ⌊y⌋ + 1 := by
  unfold roundNE
  split_ifs <;> omega

theorem roundNE_intCast (n : ℤ) : roundNE (n : ℚ) = n := by
  unfold roundNE
  simp

theorem roundNE_mono {a b : ℚ} (h : a ≤ b) : roundNE a ≤ roundNE b := by
  have hf : ⌊a⌋ ≤ ⌊b⌋ := Int.floor_mono h
  rcases hf.lt_or_eq with hlt | heq
  · calc roundNE a ≤ ⌊a⌋ + 1 := roundNE_le_floor_succ a
      _ ≤ ⌊b⌋ := hlt
      _ ≤ roundNE b := floor_le_roundNE b
  · have hd : a - ⌊a⌋ ≤ b - ⌊b⌋ := by rw [heq]; linarith
    unfold roundNE
    rw [heq] at hd ⊢
    split_ifs <;> first | omega | (exfalso; linarith)

theorem ulp32_eq {x : ℚ} {e : ℤ} (h1 : (2 : ℚ) ^ e ≤ |x|) (h2 : |x| < (2 : ℚ) ^ (e + 1)) :
    ulp32 x = (2 : ℚ) ^ (e - 23) := by
  have hx : 0 < |x| := lt_of_lt_of_le (by positivity) h1
  have hlog : Int.log 2 |x| = e := by
    apply le_antisymm
    · have := (Int.lt_zpow_iff_log_lt (R := ℚ) (b := 2) (by norm_num) hx (x := e + 1)).1
        (by simpa using h2)
      omega
    · exact (Int.zpow_le_iff_le_log (R := ℚ) (b := 2) (by norm_num) hx).1 (by simpa using h1)
  unfold ulp32
  rw [hlog]

/-- A positive value lies in the binade given by its binary logarithm. -/
theorem binade {x : ℚ} (hx : 0 < x) :
    (2 : ℚ) ^ Int.log 2 x ≤ x ∧ x < (2 : ℚ) ^ (Int.log 2 x + 1) := by
  constructor
  · simpa using Int.zpow_log_le_self (R := ℚ) (b := 2) (by norm_num) hx
  · simpa using Int.lt_zpow_succ_log_self (R := ℚ) (b := 2) (by norm_num) x

theorem f32_zero : f32 0 = 0 := by simp [f32]

theorem f32_pos_bounds {x : ℚ} (hx : 0 < x) :
    (2 : ℚ) ^ Int.log 2 x ≤ f32 x ∧ f32 x ≤ (2 : ℚ) ^ (Int.log 2 x + 1) := by
  obtain ⟨h1, h2⟩ := binade hx
  have hu : ulp32 x = (2 : ℚ) ^ (Int.log 2 x - 23) := by
    unfold ulp32; rw [abs_of_pos hx]
  have hupos : (0 : ℚ) < (2 : ℚ) ^ (Int.log 2 x - 23) := by positivity
  have e1 : (2 : ℚ) ^ Int.log 2 x = ((2 ^ 23 : ℤ) : ℚ) * (2 : ℚ) ^ (Int.log 2 x - 23) := by
    rw [zpow_sub₀ (by norm_num)]; push_cast; field_simp; ring
  have e2 : (2 : ℚ) ^ (Int.log 2 x + 1) = ((2 ^ 24 : ℤ) : ℚ) * (2 : ℚ) ^ (Int.log 2 x - 23) := by
    rw [zpow_sub₀ (by norm_num), zpow_add₀ (by norm_num)]; push_cast; field_simp; ring
  have hlo : (2 ^ 23 : ℤ) ≤ roundNE (x / (2 : ℚ) ^ (Int.log 2 x - 23)) := by
    rw [← roundNE_intCast (2 ^ 23)]
    apply roundNE_mono
    rw [le_div_iff₀ hupos, ← e1]; exact h1
  have hhi : roundNE (x / (2 : ℚ) ^ (Int.log 2 x - 23)) ≤ (2 ^ 24 : ℤ) := by
    rw [← roundNE_intCast (2 ^ 24)]
    apply roundNE_mono
    rw [div_le_iff₀ hupos, ← e2]; exact h2.le
  unfold f32
  rw [if_neg hx.ne', hu, e1, e2]
  constructor
  · exact mul_le_mul_of_nonneg_right (by exact_mod_cast hlo) hupos.le
  · exact mul_le_mul_of_nonneg_right (by exact_mod_cast hhi) hupos.le

theorem f32_nonneg {x : ℚ} (hx : 0 ≤ x) : 0 ≤ f32 x := by
  rcases hx.lt_or_eq with h | h
  · exact le_trans (by positivity) (f32_pos_bounds h).1
  · rw [← h, f32_zero]

theorem f32_mono {x y : ℚ} (hx : 0 ≤ x) (h : x ≤ y) : f32 x ≤ f32 y := by
  rcases hx.lt_or_eq with hx0 | hx0
  swap
  · rw [← hx0, f32_zero]; exact f32_nonneg (hx0 ▸ h)
  have hy0 : 0 < y := lt_of_lt_of_le hx0 h
  have hlog : Int.log 2 x ≤ Int.log 2 y := Int.log_mono_right hx0 h
  rcases hlog.lt_or_eq with hlt | heq
  · calc f32 x ≤ (2 : ℚ) ^ (Int.log 2 x + 1) := (f32_pos_bounds hx0).2
      _ ≤ (2 : ℚ) ^ Int.log 2 y := zpow_le_zpow_right₀ (by norm_num) (by omega)
      _ ≤ f32 y := (f32_pos_bounds hy0).1
  · unfold f32 ulp32
    rw [if_neg hx0.ne', if_neg hy0.ne', abs_of_pos hx0, abs_of_pos hy0, heq]
    have hupos : (0 : ℚ) < (2 : ℚ) ^ (Int.log 2 y - 23) := by positivity
    apply mul_le_mul_of_nonneg_right _ hupos.le
    exact_mod_cast roundNE_mono (div_le_div_of_nonneg_right h hupos.le)

/-- Values with a significand below `2 ^ 24` are representable. -/
theorem f32_dyadic (m k : ℤ) (hm : |m| < 2 ^ 24) : f32 (m * (2 : ℚ) ^ k) = m * (2 : ℚ) ^ k := by
  by_cases hm0 : m = 0
  · simp [hm0, f32_zero]
  have hx0 : (m : ℚ) * (2 : ℚ) ^ k ≠ 0 := by
    have : (m : ℚ) ≠ 0 := by exact_mod_cast hm0
    positivity
  have hxpos : 0 < |(m : ℚ) * (2 : ℚ) ^ k| := abs_pos.mpr hx0
  obtain ⟨h1, -⟩ := binade hxpos
  have habs : |(m : ℚ) * (2 : ℚ) ^ k| = ((|m| : ℤ) : ℚ) * (2 : ℚ) ^ k := by
    rw [abs_mul, abs_of_pos (by positivity : (0 : ℚ) < (2 : ℚ) ^ k)]; push_cast; rfl
  have hle : Int.log 2 |(m : ℚ) * (2 : ℚ) ^ k| ≤ k + 23 := by
    by_contra hcon
    push_neg at hcon
    have h5 : (2 : ℚ) ^ (k + 24) ≤ (2 : ℚ) ^ Int.log 2 |(m : ℚ) * (2 : ℚ) ^ k| :=
      zpow_le_zpow_right₀ (by norm_num) (by omega)
    have h3 : ((|m| : ℤ) : ℚ) * (2 : ℚ) ^ k < (2 : ℚ) ^ (k + 24) := by
      rw [zpow_add₀ (by norm_num), mul_comm ((2 : ℚ) ^ k)]
      apply mul_lt_mul_of_pos_right _ (by positivity)
      exact_mod_cast hm
    rw [habs] at h1 h5
    linarith
  obtain ⟨j, hj⟩ : ∃ j : ℕ, (j : ℤ) = k - (Int.log 2 |(m : ℚ) * (2 : ℚ) ^ k| - 23) :=
    ⟨(k - (Int.log 2 |(m : ℚ) * (2 : ℚ) ^ k| - 23)).toNat, Int.toNat_of_nonneg (by omega)⟩
  have hk : k = (j : ℤ) + (Int.log 2 |(m : ℚ) * (2 : ℚ) ^ k| - 23) := by omega
  have h2k : (2 : ℚ) ^ k
      = (2 : ℚ) ^ j * (2 : ℚ) ^ (Int.log 2 |(m : ℚ) * (2 : ℚ) ^ k| - 23) := by
    rw [← zpow_natCast, ← zpow_add₀ (by norm_num), ← hk]
  have hpos : (0 : ℚ) < (2 : ℚ) ^ (Int.log 2 |(m : ℚ) * (2 : ℚ) ^ k| - 23) := by positivity
  have hq : (m : ℚ) * (2 : ℚ) ^ k / ulp32 ((m : ℚ) * (2 : ℚ) ^ k) = ((m * 2 ^ j : ℤ) : ℚ) := by
    unfold ulp32
    rw [div_eq_iff hpos.ne']
    push_cast
    linear_combination (m : ℚ) * h2k
  unfold f32
  rw [if_neg hx0, hq, roundNE_intCast]
  unfold ulp32
  push_cast
  linear_combination (-(m : ℚ)) * h2k

theorem f32_intCast (n : ℤ) (hn : |n| < 2 ^ 24) : f32 (n : ℚ) = n := by
  simpa using f32_dyadic n 0 hn

theorem le_f32 {c x : ℚ} (hc : f32 c = c) (h0 : 0 ≤ c) (h : c ≤ x) : c ≤ f32 x := by
  rw [← hc]; exact f32_mono h0 h


/-- Evaluation of `f32` at a value whose binade and nearest significand are known. -/
theorem f32_eval {x : ℚ} (e m : ℤ) (h1 : (2 : ℚ) ^ e ≤ |x|) (h2 : |x| < (2 : ℚ) ^ (e + 1))
    (hm : roundNE (x / (2 : ℚ) ^ (e - 23)) = m) : f32 x = m * (2 : ℚ) ^ (e - 23) := by
  have hx : x ≠ 0 := by
    intro h0; rw [h0, abs_zero] at h1
    exact absurd h1 (not_le.mpr (by positivity))
  unfold f32
  rw [if_neg hx, ulp32_eq h1 h2, hm]

theorem roundNE_eq_of_abs_lt {y : ℚ} {m : ℤ} (h : |y - m| < 1 / 2) : roundNE y = m := by
  rw [abs_lt] at h
  obtain ⟨h1, h2⟩ := h
  by_cases hm : (m : ℚ) ≤ y
  · have hfl : ⌊y⌋ = m := by
      rw [Int.floor_eq_iff]; constructor <;> linarith
    unfold roundNE
    rw [hfl, if_pos (by linarith)]
  · push_neg at hm
    have hfl : ⌊y⌋ = m - 1 := by
      rw [Int.floor_eq_iff]; push_cast; constructor <;> linarith
    unfold roundNE
    rw [hfl]
    push_cast
    rw [if_neg (by linarith), if_pos (by linarith)]
    omega

theorem roundNE_half {y : ℚ} {m : ℤ} (h : y = m + 1 / 2) :
    roundNE y = if m % 2 = 0 then m else m + 1 := by
  have hfl : ⌊y⌋ = m := by
    rw [Int.floor_eq_iff]; constructor <;> linarith
  unfold roundNE
  rw [hfl, if_neg (by linarith), if_neg (by linarith)]

/-- Evaluation of `f32` away from a tie. -/
theorem f32_near {x : ℚ} (e m : ℤ) (h1 : (2 : ℚ) ^ e ≤ |x|) (h2 : |x| < (2 : ℚ) ^ (e + 1))
    (hm : |x / (2 : ℚ) ^ (e - 23) - m| < 1 / 2) : f32 x = m * (2 : ℚ) ^ (e - 23) :=
  f32_eval e m h1 h2 (roundNE_eq_of_abs_lt hm)

/-! ### The literals of the source -/

theorem f32_lit0 : f32 0.0 = 0 := by norm_num [f32_zero]

theorem f32_lit1 : f32 1.0 = 1 := by
  have h := f32_intCast 1 (by norm_num)
  norm_num at h ⊢
  exact h

theorem f32_lit2 : f32 2.0 = 2 := by
  have h := f32_intCast 2 (by norm_num)
  norm_num at h ⊢
  exact h

theorem f32_lit05 : f32 0.5 = 1 / 2 := by
  have h := f32_dyadic 1 (-1) (by norm_num)
  norm_num at h ⊢
  exact h

theorem ofInt_one : ofInt 1 = 1 := by
  have h := f32_intCast 1 (by norm_num)
  simpa [ofInt] using h

theorem f32_lit06 : f32 0.6 = 10066330 / 2 ^ 24 := by
  rw [f32_near (-1) 10066330 (by norm_num [abs_of_pos]) (by norm_num [abs_of_pos])
    (by norm_num [abs_lt])]
  norm_num

theorem f32_lit01 : f32 0.1 = 13421773 / 2 ^ 27 := by
  rw [f32_near (-4) 13421773 (by norm_num [abs_of_pos]) (by norm_num [abs_of_pos])
    (by norm_num [abs_lt])]
  norm_num

theorem f32_lit055 : f32 0.55 = 9227469 / 2 ^ 24 := by
  rw [f32_near (-1) 9227469 (by norm_num [abs_of_pos]) (by norm_num [abs_of_pos])
    (by norm_num [abs_lt])]
  norm_num

theorem f32_lit015 : f32 0.15 = 10066330 / 2 ^ 26 := by
  rw [f32_near (-3) 10066330 (by norm_num [abs_of_pos]) (by norm_num [abs_of_pos])
    (by norm_num [abs_lt])]
  norm_num

theorem f32_lit012 : f32 0.12 = 16106127 / 2 ^ 27 := by
  rw [f32_near (-4) 16106127 (by norm_num [abs_of_pos]) (by norm_num [abs_of_pos])
    (by norm_num [abs_lt])]
  norm_num

theorem f32_lit013 : f32 0.13 = 8724152 / 2 ^ 26 := by
  rw [f32_near (-3) 8724152 (by norm_num [abs_of_pos]) (by norm_num [abs_of_pos])
    (by norm_num [abs_lt])]
  norm_num

theorem f32_lit005 : f32 0.05 = 13421773 / 2 ^ 28 := by
  rw [f32_near (-5) 13421773 (by norm_num [abs_of_pos]) (by norm_num [abs_of_pos])
    (by norm_num [abs_lt])]
  norm_num

theorem f32_lit02 : f32 0.2 = 13421773 / 2 ^ 26 := by
  rw [f32_near (-3) 13421773 (by norm_num [abs_of_pos]) (by norm_num [abs_of_pos])
    (by norm_num [abs_lt])]
  norm_num

theorem f32_lit08 : f32 0.8 = 13421773 / 2 ^ 24 := by
  rw [f32_near (-1) 13421773 (by norm_num [abs_of_pos]) (by norm_num [abs_of_pos])
    (by norm_num [abs_lt])]
  norm_num

/-! ### Consequences for the arithmetic of the classifier -/

theorem one_le_f32 {x : ℚ} (h : 1 ≤ x) : 1 ≤ f32 x := by
  have h1 : f32 1 = 1 := by simpa using f32_intCast 1 (by norm_num)
  exact le_f32 h1 (by norm_num) h

theorem one_le_ofSize {n : ℕ} (h : 1 ≤ n) : 1 ≤ ofSize n :=
  one_le_f32 (by exact_mod_cast h)

theorem fmul_comm (a b : ℚ) : fmul a b = fmul b a := by
  unfold fmul; rw [mul_comm]

theorem Clamp_mem (X : ℚ) : 0 ≤ FMath.Clamp X 0 1 ∧ FMath.Clamp X 0 1 ≤ 1 := by
  unfold FMath.Clamp
  split_ifs <;> constructor <;> linarith

theorem Clamp_eq_one {X : ℚ} (h : 1 ≤ X) : FMath.Clamp X 0 1 = 1 := by
  unfold FMath.Clamp
  rw [if_neg (by linarith), if_neg (by linarith)]

/-! ## The classifier on a feature summary -/

theorem rule1_summary (T : FVideoProcessingThread) (n e : ℕ) (r : ℚ) :
    rule1 (summary T n e r) = decide (1 ≤ n) := by
  by_cases h : 1 ≤ n
  · have h1 := one_le_ofSize h
    simp [rule1, summary, ofInt_one, h, h1, Nat.lt_of_lt_of_le Nat.zero_lt_one h]
  · have h0 : n = 0 := by omega
    simp [rule1, summary, h0]

theorem rule2_summary (T : FVideoProcessingThread) (n e : ℕ) (r : ℚ) :
    rule2 (summary T n e r) = decide (2 ≤ e ∧ f32 0.15 < r) := by
  simp [rule2, summary]

theorem rule3_summary (T : FVideoProcessingThread) (n e : ℕ) (r : ℚ) :
    rule3 (summary T n e r) = decide (e ≤ 1 ∧ n = 0) := by
  simp only [rule3, summary]
  have hn : decide (0 < n) = !decide (n = 0) := by
    rcases Nat.eq_zero_or_pos n with h0 | h0
    · simp [h0]
    · simp [h0, h0.ne']
  rcases Nat.lt_or_ge e 2 with h | h
  · interval_cases e <;> simp [hn]
  · have h0 : e ≠ 0 := by omega
    have h1 : e ≠ 1 := by omega
    have h2 : ¬ e ≤ 1 := by omega
    simp [h0, h1, h2]

theorem rule4_summary (T : FVideoProcessingThread) (n e : ℕ) (r : ℚ) :
    rule4 (summary T n e r) = decide (2 ≤ e ∧ n = 0 ∧ r < f32 0.12) := by
  rcases Nat.eq_zero_or_pos n with h0 | h0
  · simp [rule4, summary, h0]
  · simp [rule4, summary, h0, h0.ne']

theorem rule5_summary (T : FVideoProcessingThread) (n e : ℕ) (r : ℚ) :
    rule5 (summary T n e r) = decide (2 ≤ e ∧ f32 0.13 < r ∧ n = 0) := by
  rcases Nat.eq_zero_or_pos n with h0 | h0
  · simp [rule5, summary, h0]
  · simp [rule5, summary, h0, h0.ne']

/-- The chain of `classify` on a summary, with the guards written on `n`, `e`, `r`. -/
theorem classify_summary (T : FVideoProcessingThread) (n e : ℕ) (r : ℚ) :
    classify (summary T n e r) =
      if 1 ≤ n then
        (EFacialEmotion.Happy, FMath.Clamp (fadd (f32 0.6) (fmul (ofSize n) (f32 0.1))) 0 1)
      else if 2 ≤ e ∧ f32 0.15 < r then
        (EFacialEmotion.Surprised, FMath.Clamp (fadd (f32 0.55) (fmul r 2)) 0 1)
      else if e ≤ 1 ∧ n = 0 then (EFacialEmotion.Angry, f32 0.55)
      else if 2 ≤ e ∧ n = 0 ∧ r < f32 0.12 then (EFacialEmotion.Sad, 1 / 2)
      else if 2 ≤ e ∧ f32 0.13 < r ∧ n = 0 then (EFacialEmotion.Fearful, 1 / 2)
      else (EFacialEmotion.Neutral, f32 0.6) := by
  unfold classify
  rw [rule1_summary, rule2_summary, rule3_summary, rule4_summary, rule5_summary]
  simp only [decide_eq_true_eq, f32_lit0, f32_lit1, f32_lit2, f32_lit05]
  rfl

/-- The feature phase leaves a summary: `classify` reads nothing else. -/
theorem calcFeatures_eq_summary (T : FVideoProcessingThread) (Eyes Smiles : List Rect)
    (FaceRect : Rect) :
    ∃ T0, calcFeatures T Eyes Smiles FaceRect
      = summary T0 Smiles.length Eyes.length (relativeEyeSize Eyes FaceRect) :=
  ⟨calcFeatures T Eyes Smiles FaceRect, rfl⟩

theorem DetectEmotionFrom_eq (T : FVideoProcessingThread) (Eyes Smiles : List Rect)
    (FaceRect : Rect) (T0 : FVideoProcessingThread) :
    (DetectEmotionFrom T Eyes Smiles FaceRect).2
      = classify (summary T0 Smiles.length Eyes.length (relativeEyeSize Eyes FaceRect)) := by
  obtain ⟨T1, h1⟩ := calcFeatures_eq_summary T Eyes Smiles FaceRect
  unfold DetectEmotionFrom
  simp only [h1, classify_summary]

/-! ## C1: the classifier is the first-match rule list of the specification -/

/-- C1. For every feature summary (smile count `n`, eye count `e`, relative eye size `r`) the
emotion and confidence computed by `DetectEmotion` are those of the ordered first-match rule
list of the specification (`specRules`), on a summary, on the detections and with the
detectors in place.
With no smile and no eye the result is Angry with the confidence `0.55f`; with no smile, two
eyes and `r = 0.05f` it is Sad with the confidence `0.5f = 1/2`. -/
theorem C1_classify_eq_specRules :
    (∀ (T : FVideoProcessingThread) (n e : ℕ) (r : ℚ),
      classify (summary T n e r) = specRules n e r) ∧
    (∀ (T : FVideoProcessingThread) (Eyes Smiles : List Rect) (FaceRect : Rect),
      (DetectEmotionFrom T Eyes Smiles FaceRect).2
        = specRules Smiles.length Eyes.length (relativeEyeSize Eyes FaceRect)) ∧
    (∀ (cv : OpenCV) (T : FVideoProcessingThread) (FaceROI : Mat) (FaceRect : Rect),
      (DetectEmotion cv T FaceROI FaceRect).2
        = specRules (cv.SmileCascade (cv.roi FaceROI (LowerFaceRect FaceROI))).length
            (cv.EyeCascade FaceROI).length
            (relativeEyeSize (cv.EyeCascade FaceROI) FaceRect)) ∧
    (∀ (T : FVideoProcessingThread) (r : ℚ),
      classify (summary T 0 0 r) = (EFacialEmotion.Angry, f32 0.55)) ∧
    (∀ T : FVideoProcessingThread,
      classify (summary T 0 2 (f32 0.05)) = (EFacialEmotion.Sad, f32 0.5)) ∧
    f32 0.55 = 9227469 / 2 ^ 24 ∧ f32 0.5 = 1 / 2 := by
  have main : ∀ (T : FVideoProcessingThread) (n e : ℕ) (r : ℚ),
      classify (summary T n e r) = specRules n e r := by
    intro T n e r
    rw [classify_summary]
    unfold specRules
    rw [fmul_comm (f32 0.1), fmul_comm (f32 2.0), f32_lit2, f32_lit05]
    by_cases h : 1 ≤ n
    · simp [h]
    · have hn : n = 0 := by omega
      subst hn
      simp
  refine ⟨main, ?_, ?_, ?_, ?_, f32_lit055, f32_lit05⟩
  · intro T Eyes Smiles FaceRect
    rw [DetectEmotionFrom_eq T Eyes Smiles FaceRect T, main]
  · intro cv T FaceROI FaceRect
    unfold DetectEmotion
    rw [DetectEmotionFrom_eq T _ _ FaceRect T, main]
  · intro T r
    rw [classify_summary]
    simp
  · intro T
    rw [classify_summary, f32_lit005, f32_lit015, f32_lit012, f32_lit05]
    norm_num

/-! ## C2: the clamped face rectangle lies inside the frame -/

theorem ScaledFace_bounds (cols rows : ℤ) (Face : Rect) :
    0 ≤ (ScaledFace cols rows Face).x ∧ 0 ≤ (ScaledFace cols rows Face).y ∧
    (ScaledFace cols rows Face).x + (ScaledFace cols rows Face).width ≤ cols ∧
    (ScaledFace cols rows Face).y + (ScaledFace cols rows Face).height ≤ rows := by
  simp only [ScaledFace, FMath.Max, FMath.Min]
  refine ⟨?_, ?_, ?_, ?_⟩ <;> split_ifs <;> omega

/-- The face loop skips a face whose clamped rectangle has no area. -/
theorem faceBody_dropped (cv : OpenCV) (G : Mat) (L : FaceLoop) (Face : Rect)
    (h : (ScaledFace G.cols G.rows Face).width ≤ 0 ∨
      (ScaledFace G.cols G.rows Face).height ≤ 0) :
    faceBody cv G L Face = L := by
  unfold faceBody
  simp only [if_pos h]

/-- The face loop processes a face whose clamped rectangle has positive width and height. -/
theorem faceBody_kept (cv : OpenCV) (G : Mat) (L : FaceLoop) (Face : Rect)
    (h : ¬ ((ScaledFace G.cols G.rows Face).width ≤ 0 ∨
      (ScaledFace G.cols G.rows Face).height ≤ 0)) :
    faceBody cv G L Face =
      { T := (DetectEmotion cv L.T (cv.roi G (ScaledFace G.cols G.rows Face))
          (ScaledFace G.cols G.rows Face)).1
        NewEmotions := L.NewEmotions ++
          [emotionData
            (DetectEmotion cv L.T (cv.roi G (ScaledFace G.cols G.rows Face))
              (ScaledFace G.cols G.rows Face)).2.1
            (DetectEmotion cv L.T (cv.roi G (ScaledFace G.cols G.rows Face))
              (ScaledFace G.cols G.rows Face)).2.2
            (ScaledFace G.cols G.rows Face)]
        Frame := annotate cv L.Frame (ScaledFace G.cols G.rows Face)
          (DetectEmotion cv L.T (cv.roi G (ScaledFace G.cols G.rows Face))
            (ScaledFace G.cols G.rows Face)).2.1
          (DetectEmotion cv L.T (cv.roi G (ScaledFace G.cols G.rows Face))
            (ScaledFace G.cols G.rows Face)).2.2 } := by
  unfold faceBody
  simp only [if_neg h]

/-- C2. For every face rectangle returned by the face detector and every frame size, the
rectangle `ScaledFace` obtained in `ProcessFrame` by doubling and clamping satisfies `0 ≤ x`,
`0 ≤ y`, `x + width ≤ cols` and `y + height ≤ rows`; the loop body either drops the face
(clamped width or height `≤ 0`: nothing is extracted, nothing is added) or hands to the
sub-image extraction and to `DetectEmotion` a rectangle of positive width and height that lies
inside the frame. -/
theorem C2_ScaledFace_inside_frame (cv : OpenCV) (G : Mat) (L : FaceLoop) (Face : Rect) :
    (0 ≤ (ScaledFace G.cols G.rows Face).x ∧ 0 ≤ (ScaledFace G.cols G.rows Face).y ∧
      (ScaledFace G.cols G.rows Face).x + (ScaledFace G.cols G.rows Face).width ≤ G.cols ∧
      (ScaledFace G.cols G.rows Face).y + (ScaledFace G.cols G.rows Face).height ≤ G.rows) ∧
    ((((ScaledFace G.cols G.rows Face).width ≤ 0 ∨ (ScaledFace G.cols G.rows Face).height ≤ 0) ∧
        faceBody cv G L Face = L) ∨
      (0 < (ScaledFace G.cols G.rows Face).width ∧ 0 < (ScaledFace G.cols G.rows Face).height ∧
        (faceBody cv G L Face).NewEmotions = L.NewEmotions ++
          [emotionData
            (DetectEmotion cv L.T (cv.roi G (ScaledFace G.cols G.rows Face))
              (ScaledFace G.cols G.rows Face)).2.1
            (DetectEmotion cv L.T (cv.roi G (ScaledFace G.cols G.rows Face))
              (ScaledFace G.cols G.rows Face)).2.2
            (ScaledFace G.cols G.rows Face)])) := by
  refine ⟨ScaledFace_bounds G.cols G.rows Face, ?_⟩
  by_cases h : (ScaledFace G.cols G.rows Face).width ≤ 0 ∨
      (ScaledFace G.cols G.rows Face).height ≤ 0
  · exact Or.inl ⟨h, faceBody_dropped cv G L Face h⟩
  · right
    rw [faceBody_kept cv G L Face h]
    push_neg at h
    exact ⟨h.1, h.2, rfl⟩

/-! ## Two eye detections in a face of 200 pixels -/

/-- Two eye detections of height `h` in a face of height 200: `RelativeEyeSize` is the
`float` quotient `h / 200`. -/
theorem relativeEyeSize_eyesOf (h : ℤ) (h0 : 0 ≤ h) (h1 : h < 2 ^ 22) :
    relativeEyeSize (eyesOf h) face200 = f32 (h / 200) := by
  have a1 : f32 (h : ℚ) = h := f32_intCast h (by rw [abs_of_nonneg h0]; omega)
  have a2 : f32 ((h : ℚ) + h) = h + h := by
    have := f32_intCast (h + h) (by rw [abs_of_nonneg (by omega)]; omega)
    push_cast at this
    exact this
  have a3 : f32 (2 : ℚ) = 2 := by simpa using f32_intCast 2 (by norm_num)
  have a4 : f32 (200 : ℚ) = 200 := by simpa using f32_intCast 200 (by norm_num)
  have a5 : ((h : ℚ) + h) / 2 = h := by ring
  simp [relativeEyeSize, AvgEyeHeight, sumField, eyesOf, face200, fadd, fdiv, ofInt, ofSize,
    f32_lit0, a1, a2, a3, a4, a5]

/-- The emotion returned on two eye detections of height `h` in a face of height 200 and
no smile detection. -/
theorem DetectEmotionFrom_eyesOf (T : FVideoProcessingThread) (h : ℤ) (h0 : 0 ≤ h)
    (h1 : h < 2 ^ 22) :
    (DetectEmotionFrom T (eyesOf h) [] face200).2
      = classify (summary T 0 2 (f32 (h / 200))) := by
  rw [DetectEmotionFrom_eq T (eyesOf h) [] face200 T, relativeEyeSize_eyesOf h h0 h1]
  rfl

/-! ## C3: the confidence lies in `[0, 1]` -/

theorem classify_conf_mem (T : FVideoProcessingThread) (n e : ℕ) (r : ℚ) :
    0 ≤ (classify (summary T n e r)).2 ∧ (classify (summary T n e r)).2 ≤ 1 := by
  rw [classify_summary]
  split_ifs
  · exact Clamp_mem _
  · exact Clamp_mem _
  · simp only [f32_lit055]; norm_num
  · norm_num
  · norm_num
  · simp only [f32_lit06]; norm_num

/-- From four smile detections on, the sum `0.6f + SmileIntensity * 0.1f` reaches `1`. -/
theorem happy_sum_ge_one {n : ℕ} (h : 4 ≤ n) :
    1 ≤ fadd (f32 0.6) (fmul (ofSize n) (f32 0.1)) := by
  have h4 : (4 : ℚ) ≤ ofSize n := by
    have e4 : f32 4 = 4 := by simpa using f32_intCast 4 (by norm_num)
    exact le_f32 e4 (by norm_num) (by exact_mod_cast h)
  have hc : f32 (13421773 / 2 ^ 25) = 13421773 / 2 ^ 25 := by
    have := f32_dyadic 13421773 (-25) (by norm_num)
    norm_num at this ⊢
    exact this
  have hm : (13421773 / 2 ^ 25 : ℚ) ≤ fmul (ofSize n) (f32 0.1) := by
    refine le_f32 hc (by norm_num) ?_
    rw [f32_lit01]
    nlinarith
  refine one_le_f32 ?_
  rw [f32_lit06]
  norm_num at hm ⊢
  linarith

/-- From `RelativeEyeSize = 0.225` on, the sum `0.55f + RelativeEyeSize * 2.0f` reaches `1`. -/
theorem surprised_sum_ge_one {r : ℚ} (h : 9 / 40 ≤ r) : 1 ≤ fadd (f32 0.55) (fmul r 2) := by
  have hc : f32 (15099494 / 2 ^ 25) = 15099494 / 2 ^ 25 := by
    have := f32_dyadic 15099494 (-25) (by norm_num)
    norm_num at this ⊢
    exact this
  have hm : (15099494 / 2 ^ 25 : ℚ) ≤ fmul r 2 := by
    refine le_f32 hc (by norm_num) ?_
    norm_num
    linarith
  refine one_le_f32 ?_
  rw [f32_lit055]
  norm_num at hm ⊢
  linarith

/-- The `float` sum `0.55f + 0.2f * 2.0f`: a tie, rounded to the even significand. -/
theorem surprised_sum_at_02 :
    fadd (f32 0.55) (fmul (f32 0.2) 2) = 15938356 / 2 ^ 24 := by
  have hm : fmul (f32 0.2) 2 = 13421773 / 2 ^ 25 := by
    have := f32_dyadic 13421773 (-25) (by norm_num)
    unfold fmul
    rw [f32_lit02]
    norm_num at this ⊢
    exact this
  unfold fadd
  rw [hm, f32_lit055]
  rw [f32_eval (-1) 15938356 (by norm_num [abs_of_pos]) (by norm_num [abs_of_pos])
    (by rw [roundNE_half (m := 15938355) (by norm_num)]; norm_num)]
  norm_num

/-- The percentage drawn for the confidence `0.55f + 0.2f * 2.0f`: `(int)(Confidence * 100)`
is `95`. -/
theorem surprised_percent_at_02 :
    toInt (fmul (fadd (f32 0.55) (fmul (f32 0.2) 2)) (ofInt 100)) = 95 := by
  have h100 : ofInt 100 = 100 := by
    have := f32_intCast 100 (by norm_num)
    simpa [ofInt] using this
  have hp : fmul (15938356 / 2 ^ 24) 100 = 12451841 / 2 ^ 17 := by
    unfold fmul
    rw [f32_near 6 12451841 (by norm_num [abs_of_pos]) (by norm_num [abs_of_pos])
      (by norm_num [abs_lt])]
    norm_num
  rw [surprised_sum_at_02, h100, hp]
  unfold toInt
  rw [if_pos (by norm_num), Int.floor_eq_iff]
  norm_num

theorem f32_lit095 : f32 0.95 = 15938355 / 2 ^ 24 := by
  rw [f32_near (-1) 15938355 (by norm_num [abs_of_pos]) (by norm_num [abs_of_pos])
    (by norm_num [abs_lt])]
  norm_num

/-- The result for no smile, two eyes and `RelativeEyeSize = 0.2f`. -/
theorem classify_at_02 (T : FVideoProcessingThread) :
    classify (summary T 0 2 (f32 0.2)) = (EFacialEmotion.Surprised, 15938356 / 2 ^ 24) := by
  have h15 : f32 0.15 < f32 0.2 := by rw [f32_lit015, f32_lit02]; norm_num
  rw [classify_summary, if_neg (by omega), if_pos ⟨le_refl 2, h15⟩, surprised_sum_at_02]
  unfold FMath.Clamp
  norm_num

/-- C3, as stated, fails in its last clause.  For no smile, two eyes and
`RelativeEyeSize = 0.20f` (two eye detections of 40 pixels in a face of 200 pixels) the result
is Surprised with the confidence `15938356 / 2 ^ 24`: this is neither the `float` value
`0.95f = 15938355 / 2 ^ 24` nor the number `0.95`. -/
theorem C3_scenario_confidence_not_095 :
    classify (summary initialWorker 0 2 (f32 0.20))
      = (EFacialEmotion.Surprised, 15938356 / 2 ^ 24) ∧
    (DetectEmotionFrom initialWorker (eyesOf 40) [] face200).2
      = (EFacialEmotion.Surprised, 15938356 / 2 ^ 24) ∧
    f32 0.95 = 15938355 / 2 ^ 24 ∧
    (classify (summary initialWorker 0 2 (f32 0.20))).2 ≠ f32 0.95 ∧
    (classify (summary initialWorker 0 2 (f32 0.20))).2 ≠ 0.95 ∧
    (DetectEmotionFrom initialWorker (eyesOf 40) [] face200).2.2 ≠ f32 0.95 ∧
    (DetectEmotionFrom initialWorker (eyesOf 40) [] face200).2.2 ≠ 0.95 := by
  have e02 : (0.20 : ℚ) = 0.2 := by norm_num
  have hD : (DetectEmotionFrom initialWorker (eyesOf 40) [] face200).2
      = (EFacialEmotion.Surprised, 15938356 / 2 ^ 24) := by
    rw [DetectEmotionFrom_eyesOf _ 40 (by norm_num) (by norm_num)]
    have e : ((40 : ℤ) : ℚ) / 200 = 0.2 := by norm_num
    rw [e]
    exact classify_at_02 initialWorker
  rw [e02, classify_at_02, hD, f32_lit095]
  refine ⟨rfl, rfl, rfl, ?_, ?_, ?_, ?_⟩ <;> norm_num

/-- C3, amended.  For every input of `DetectEmotion` (any number of smile and eye detections,
any relative eye size) the returned confidence lies in `[0, 1]`.  The clamp caps the Happy
confidence at `1` from four smile detections on and the Surprised confidence at `1` from
`RelativeEyeSize = 0.225` on.  For no smile, two eyes and `RelativeEyeSize = 0.20f` the result
is Surprised and the clamp leaves the confidence `0.55f + 0.20f * 2.0f` as it is.  In `float`
arithmetic this sum is `15938356 / 2 ^ 24 = 0.95000005`, one unit in the last place above the
`float` value `0.95f`: it is closer to `0.95` than `2 ^ -24` and is drawn on the frame as
`95` percent. -/
theorem C3_confidence_in_unit_interval :
    (∀ (T : FVideoProcessingThread) (n e : ℕ) (r : ℚ),
      0 ≤ (classify (summary T n e r)).2 ∧ (classify (summary T n e r)).2 ≤ 1) ∧
    (∀ (T : FVideoProcessingThread) (Eyes Smiles : List Rect) (FaceRect : Rect),
      0 ≤ (DetectEmotionFrom T Eyes Smiles FaceRect).2.2 ∧
      (DetectEmotionFrom T Eyes Smiles FaceRect).2.2 ≤ 1) ∧
    (∀ (T : FVideoProcessingThread) (n e : ℕ) (r : ℚ), 4 ≤ n →
      classify (summary T n e r) = (EFacialEmotion.Happy, 1)) ∧
    (∀ (T : FVideoProcessingThread) (e : ℕ) (r : ℚ), 2 ≤ e → 9 / 40 ≤ r →
      classify (summary T 0 e r) = (EFacialEmotion.Surprised, 1)) ∧
    (∀ T : FVideoProcessingThread,
      classify (summary T 0 2 (f32 0.20))
        = (EFacialEmotion.Surprised, fadd (f32 0.55) (fmul (f32 0.20) (f32 2.0)))) ∧
    fadd (f32 0.55) (fmul (f32 0.20) (f32 2.0)) = 15938356 / 2 ^ 24 ∧
    |fadd (f32 0.55) (fmul (f32 0.20) (f32 2.0)) - 0.95| < 1 / 2 ^ 24 ∧
    toInt (fmul (fadd (f32 0.55) (fmul (f32 0.20) (f32 2.0))) (ofInt 100)) = 95 ∧
    fadd (f32 0.55) (fmul (f32 0.20) (f32 2.0)) = f32 0.95 + 1 / 2 ^ 24 := by
  have e02 : (0.20 : ℚ) = 0.2 := by norm_num
  refine ⟨classify_conf_mem, ?_, ?_, ?_, ?_, ?_, ?_, ?_, ?_⟩
  · intro T Eyes Smiles FaceRect
    rw [DetectEmotionFrom_eq T Eyes Smiles FaceRect T]
    exact classify_conf_mem T _ _ _
  · intro T n e r h
    rw [classify_summary, if_pos (by omega), Clamp_eq_one (happy_sum_ge_one h)]
  · intro T e r he hr
    have h15 : f32 0.15 < r := by rw [f32_lit015]; norm_num; linarith
    rw [classify_summary, if_neg (by omega), if_pos ⟨he, h15⟩,
      Clamp_eq_one (surprised_sum_ge_one hr)]
  · intro T
    have h15 : f32 0.15 < f32 0.2 := by rw [f32_lit015, f32_lit02]; norm_num
    rw [e02, f32_lit2, classify_summary, if_neg (by omega), if_pos ⟨le_refl 2, h15⟩,
      surprised_sum_at_02]
    unfold FMath.Clamp
    norm_num
  · rw [e02, f32_lit2, surprised_sum_at_02]
  · rw [e02, f32_lit2, surprised_sum_at_02]
    norm_num [abs_lt]
  · rw [e02, f32_lit2]
    exact surprised_percent_at_02
  · rw [e02, f32_lit2, surprised_sum_at_02, f32_lit095]
    norm_num

/-- C3 at five smile detections, and at two eyes with relative eye size `1/4`. -/
theorem C3_confidence_in_unit_interval_witness :
    classify (summary initialWorker 5 0 0) = (EFacialEmotion.Happy, 1) ∧
    classify (summary initialWorker 0 2 (1 / 4)) = (EFacialEmotion.Surprised, 1) :=
  ⟨C3_confidence_in_unit_interval.2.2.1 initialWorker 5 0 0 (by decide),
   C3_confidence_in_unit_interval.2.2.2.1 initialWorker 2 (1 / 4) (by decide) (by norm_num)⟩

/-! ## C4: a smile always gives Happy -/

/-- The `float` sum `0.6f + 2 * 0.1f` is the `float` value `0.8f`. -/
theorem happy_sum_at_two : fadd (f32 0.6) (fmul (ofSize 2) (f32 0.1)) = f32 0.8 := by
  have h2 : ofSize 2 = 2 := by
    have := f32_intCast 2 (by norm_num)
    simpa [ofSize] using this
  have hm : fmul (ofSize 2) (f32 0.1) = 13421773 / 2 ^ 26 := by
    have := f32_dyadic 13421773 (-26) (by norm_num)
    unfold fmul
    rw [h2, f32_lit01]
    norm_num at this ⊢
    exact this
  unfold fadd
  rw [hm, f32_lit06, f32_lit08]
  rw [f32_near (-1) 13421773 (by norm_num [abs_of_pos]) (by norm_num [abs_of_pos])
    (by norm_num [abs_lt])]
  norm_num

/-- C4. For every feature summary with at least one smile detection, `DetectEmotion` returns
Happy with the confidence `clamp(0.6 + 0.1 * smileCount, 0, 1)` (in `float` arithmetic),
whatever the eye count and the relative eye size are.  A smile with zero eyes yields Happy,
not Angry, and two smile detections yield Happy with the confidence `0.8f`. -/
theorem C4_smile_gives_happy (T : FVideoProcessingThread) (n e : ℕ) (r : ℚ)
    (Eyes Smiles : List Rect) (FaceRect : Rect) (h : 1 ≤ n) (hS : 1 ≤ Smiles.length) :
    classify (summary T n e r)
      = (EFacialEmotion.Happy, FMath.Clamp (fadd (f32 0.6) (fmul (f32 0.1) (ofSize n))) 0 1) ∧
    (DetectEmotionFrom T Eyes Smiles FaceRect).2
      = (EFacialEmotion.Happy,
          FMath.Clamp (fadd (f32 0.6) (fmul (f32 0.1) (ofSize Smiles.length))) 0 1) ∧
    (classify (summary T n 0 r)).1 = EFacialEmotion.Happy ∧
    (classify (summary T n 0 r)).1 ≠ EFacialEmotion.Angry ∧
    classify (summary T 2 e r) = (EFacialEmotion.Happy, f32 0.8) ∧
    f32 0.8 = 13421773 / 2 ^ 24 := by
  refine ⟨?_, ?_, ?_, ?_, ?_, f32_lit08⟩
  · rw [classify_summary, if_pos h, fmul_comm]
  · rw [DetectEmotionFrom_eq T Eyes Smiles FaceRect T, classify_summary, if_pos hS, fmul_comm]
  · rw [classify_summary, if_pos h]
  · rw [classify_summary, if_pos h]
    simp
  · rw [classify_summary, if_pos (by norm_num), happy_sum_at_two, f32_lit08]
    unfold FMath.Clamp
    norm_num

/-- C4 at one smile detection and no eye detection. -/
theorem C4_smile_gives_happy_witness :
    classify (summary initialWorker 1 0 0)
      = (EFacialEmotion.Happy, FMath.Clamp (fadd (f32 0.6) (fmul (f32 0.1) (ofSize 1))) 0 1) ∧
    (DetectEmotionFrom initialWorker [] oneSmile face200).2
      = (EFacialEmotion.Happy,
          FMath.Clamp (fadd (f32 0.6) (fmul (f32 0.1) (ofSize oneSmile.length))) 0 1) ∧
    (classify (summary initialWorker 1 0 0)).1 = EFacialEmotion.Happy ∧
    (classify (summary initialWorker 1 0 0)).1 ≠ EFacialEmotion.Angry ∧
    classify (summary initialWorker 2 0 0) = (EFacialEmotion.Happy, f32 0.8) ∧
    f32 0.8 = 13421773 / 2 ^ 24 :=
  C4_smile_gives_happy initialWorker 1 0 0 [] oneSmile face200 (by decide) (by decide)

/-! ## C5: the result of `DetectEmotion` does not depend on the worker it is called on -/

theorem DetectEmotionFrom_indep (T1 T2 : FVideoProcessingThread) (Eyes Smiles : List Rect)
    (FaceRect : Rect) :
    (DetectEmotionFrom T1 Eyes Smiles FaceRect).2
      = (DetectEmotionFrom T2 Eyes Smiles FaceRect).2 := by
  rw [DetectEmotionFrom_eq T1 Eyes Smiles FaceRect T1,
    DetectEmotionFrom_eq T2 Eyes Smiles FaceRect T1]

theorem DetectEmotion_indep (cv : OpenCV) (T1 T2 : FVideoProcessingThread) (FaceROI : Mat)
    (FaceRect : Rect) :
    (DetectEmotion cv T1 FaceROI FaceRect).2 = (DetectEmotion cv T2 FaceROI FaceRect).2 := by
  unfold DetectEmotion
  exact DetectEmotionFrom_indep T1 T2 _ _ FaceRect

/-- C5. The classifier has no hidden state: for any two worker states, in particular two
that differ only in the scratch members kept between calls, `DetectEmotion` called with the
same eye detections, smile detections and face rectangle returns the same emotion and the same
confidence; the same holds with the detectors in place, and for a call made right after another
call.  The call itself writes scratch members only: the published slots and `bRunning` are
left as they were. -/
theorem C5_DetectEmotion_no_hidden_state (cv : OpenCV) (T1 T2 : FVideoProcessingThread)
    (Eyes Smiles Eyes0 Smiles0 : List Rect) (FaceROI : Mat) (FaceRect FaceRect0 : Rect) :
    (DetectEmotionFrom T1 Eyes Smiles FaceRect).2
      = (DetectEmotionFrom T2 Eyes Smiles FaceRect).2 ∧
    (DetectEmotion cv T1 FaceROI FaceRect).2 = (DetectEmotion cv T2 FaceROI FaceRect).2 ∧
    (DetectEmotionFrom (DetectEmotionFrom T1 Eyes0 Smiles0 FaceRect0).1 Eyes Smiles FaceRect).2
      = (DetectEmotionFrom T1 Eyes Smiles FaceRect).2 ∧
    (DetectEmotionFrom T1 Eyes Smiles FaceRect).1.EmotionResults = T1.EmotionResults ∧
    (DetectEmotionFrom T1 Eyes Smiles FaceRect).1.ProcessedFrame = T1.ProcessedFrame ∧
    (DetectEmotionFrom T1 Eyes Smiles FaceRect).1.bRunning = T1.bRunning ∧
    (DetectEmotionFrom T1 Eyes Smiles FaceRect).1.EmotionHistory = T1.EmotionHistory :=
  ⟨DetectEmotionFrom_indep T1 T2 Eyes Smiles FaceRect,
   DetectEmotion_indep cv T1 T2 FaceROI FaceRect,
   DetectEmotionFrom_indep _ T1 Eyes Smiles FaceRect, rfl, rfl, rfl, rfl⟩

/-! ## C6: which emotions `DetectEmotion` returns -/

theorem f32_lit014 : f32 0.14 = 9395241 / 2 ^ 26 := by
  rw [f32_near (-3) 9395241 (by norm_num [abs_of_pos]) (by norm_num [abs_of_pos])
    (by norm_num [abs_lt])]
  norm_num

theorem f32_lit0125 : f32 0.125 = 1 / 8 := by
  have h := f32_dyadic 1 (-3) (by norm_num)
  norm_num at h ⊢
  exact h

theorem classify_ne_Disgusted (T : FVideoProcessingThread) (n e : ℕ) (r : ℚ) :
    (classify (summary T n e r)).1 ≠ EFacialEmotion.Disgusted ∧
    (classify (summary T n e r)).1 ∈ [EFacialEmotion.Neutral, EFacialEmotion.Happy,
      EFacialEmotion.Sad, EFacialEmotion.Angry, EFacialEmotion.Surprised,
      EFacialEmotion.Fearful] := by
  rw [classify_summary]
  split_ifs <;> simp

/-- C6. For every input `DetectEmotion` never returns Disgusted: the result is always one of
Neutral, Happy, Sad, Angry, Surprised, Fearful, and each of these six is returned for some
input (a face of 200 by 200 pixels with two eye detections of 25, 20, 40 or 28 pixels, no
detection at all, or one smile detection). -/
theorem C6_Disgusted_never_returned :
    (∀ (T : FVideoProcessingThread) (Eyes Smiles : List Rect) (FaceRect : Rect),
      (DetectEmotionFrom T Eyes Smiles FaceRect).2.1 ≠ EFacialEmotion.Disgusted ∧
      (DetectEmotionFrom T Eyes Smiles FaceRect).2.1 ∈ [EFacialEmotion.Neutral,
        EFacialEmotion.Happy, EFacialEmotion.Sad, EFacialEmotion.Angry,
        EFacialEmotion.Surprised, EFacialEmotion.Fearful]) ∧
    (∀ (cv : OpenCV) (T : FVideoProcessingThread) (FaceROI : Mat) (FaceRect : Rect),
      (DetectEmotion cv T FaceROI FaceRect).2.1 ≠ EFacialEmotion.Disgusted) ∧
    (DetectEmotionFrom initialWorker (eyesOf 25) [] face200).2.1 = EFacialEmotion.Neutral ∧
    (DetectEmotionFrom initialWorker [] oneSmile face200).2.1 = EFacialEmotion.Happy ∧
    (DetectEmotionFrom initialWorker (eyesOf 20) [] face200).2.1 = EFacialEmotion.Sad ∧
    (DetectEmotionFrom initialWorker [] [] face200).2.1 = EFacialEmotion.Angry ∧
    (DetectEmotionFrom initialWorker (eyesOf 40) [] face200).2.1 = EFacialEmotion.Surprised ∧
    (DetectEmotionFrom initialWorker (eyesOf 28) [] face200).2.1 = EFacialEmotion.Fearful := by
  have key : ∀ (T : FVideoProcessingThread) (Eyes Smiles : List Rect) (FaceRect : Rect),
      (DetectEmotionFrom T Eyes Smiles FaceRect).2.1 ≠ EFacialEmotion.Disgusted ∧
      (DetectEmotionFrom T Eyes Smiles FaceRect).2.1 ∈ [EFacialEmotion.Neutral,
        EFacialEmotion.Happy, EFacialEmotion.Sad, EFacialEmotion.Angry,
        EFacialEmotion.Surprised, EFacialEmotion.Fearful] := by
    intro T Eyes Smiles FaceRect
    rw [DetectEmotionFrom_eq T Eyes Smiles FaceRect T]
    exact classify_ne_Disgusted T _ _ _
  refine ⟨key, ?_, ?_, ?_, ?_, ?_, ?_, ?_⟩
  · intro cv T FaceROI FaceRect
    unfold DetectEmotion
    exact (key T _ _ FaceRect).1
  · rw [DetectEmotionFrom_eyesOf _ 25 (by norm_num) (by norm_num), classify_summary]
    have e : ((25 : ℤ) : ℚ) / 200 = 0.125 := by norm_num
    rw [e, f32_lit0125, f32_lit015, f32_lit012, f32_lit013]
    norm_num
  · rw [DetectEmotionFrom_eq _ _ _ _ initialWorker, classify_summary]
    simp [oneSmile]
  · rw [DetectEmotionFrom_eyesOf _ 20 (by norm_num) (by norm_num), classify_summary]
    have e : ((20 : ℤ) : ℚ) / 200 = 0.1 := by norm_num
    rw [e, f32_lit01, f32_lit015, f32_lit012]
    norm_num
  · rw [DetectEmotionFrom_eq _ _ _ _ initialWorker, classify_summary]
    simp
  · rw [DetectEmotionFrom_eyesOf _ 40 (by norm_num) (by norm_num), classify_summary]
    have e : ((40 : ℤ) : ℚ) / 200 = 0.2 := by norm_num
    rw [e, f32_lit02, f32_lit015]
    norm_num
  · rw [DetectEmotionFrom_eyesOf _ 28 (by norm_num) (by norm_num), classify_summary]
    have e : ((28 : ℤ) : ℚ) / 200 = 0.14 := by norm_num
    rw [e, f32_lit014, f32_lit015, f32_lit012, f32_lit013]
    norm_num

/-! ## C7: which guards of the chain can hold together -/

/-- C7, as stated, fails.  On a face of 200 by 200 pixels with two eye detections of
40 pixels and one smile detection the guards of rules 1 and 2 are both true; on the same face
without the smile detection the guards of rules 2 and 5 are both true. -/
theorem C7_guards_overlap :
    rule1 (calcFeatures initialWorker (eyesOf 40) oneSmile face200) = true ∧
    rule2 (calcFeatures initialWorker (eyesOf 40) oneSmile face200) = true ∧
    guardsTrue (calcFeatures initialWorker (eyesOf 40) oneSmile face200) = 2 ∧
    rule2 (calcFeatures initialWorker (eyesOf 40) [] face200) = true ∧
    rule5 (calcFeatures initialWorker (eyesOf 40) [] face200) = true ∧
    guardsTrue (calcFeatures initialWorker (eyesOf 40) [] face200) = 2 := by
  have hr : relativeEyeSize (eyesOf 40) face200 = 13421773 / 2 ^ 26 := by
    rw [relativeEyeSize_eyesOf 40 (by norm_num) (by norm_num)]
    have e : ((40 : ℤ) : ℚ) / 200 = 0.2 := by norm_num
    rw [e, f32_lit02]
  have s1 : calcFeatures initialWorker (eyesOf 40) oneSmile face200
      = summary (calcFeatures initialWorker (eyesOf 40) oneSmile face200) 1 2
          (13421773 / 2 ^ 26) := by
    rw [← hr]; rfl
  have s0 : calcFeatures initialWorker (eyesOf 40) [] face200
      = summary (calcFeatures initialWorker (eyesOf 40) [] face200) 0 2
          (13421773 / 2 ^ 26) := by
    rw [← hr]; rfl
  have h15 : f32 0.15 < 13421773 / 2 ^ 26 := by rw [f32_lit015]; norm_num
  have h13 : f32 0.13 < 13421773 / 2 ^ 26 := by rw [f32_lit013]; norm_num
  have h12 : ¬ ((13421773 / 2 ^ 26 : ℚ) < f32 0.12) := by rw [f32_lit012]; norm_num
  refine ⟨?_, ?_, ?_, ?_, ?_, ?_⟩
  · rw [s1, rule1_summary]; simp
  · rw [s1, rule2_summary]; simp [h15]
  · rw [s1]
    simp [guardsTrue, guards, rule1_summary, rule2_summary, rule3_summary, rule4_summary,
      rule5_summary, h15]
  · rw [s0, rule2_summary]; simp [h15]
  · rw [s0, rule5_summary]; simp [h13]
  · rw [s0]
    simp [guardsTrue, guards, rule1_summary, rule2_summary, rule3_summary, rule4_summary,
      rule5_summary, h15, h13, h12]

theorem count_guards_le_two (a b c d e : Bool) (h13 : (a && c) = false)
    (h14 : (a && d) = false) (h15 : (a && e) = false) (h34 : (c && d) = false)
    (h35 : (c && e) = false) (h45 : (d && e) = false) (h23 : (b && c) = false)
    (h24 : (b && d) = false) : [a, b, c, d, e].count true ≤ 2 := by
  revert h13 h14 h15 h34 h35 h45 h23 h24
  cases a <;> cases b <;> cases c <;> cases d <;> cases e <;> decide

/-- The exclusive pairs of guards on a feature summary. -/
theorem guards_exclusive (T : FVideoProcessingThread) (n e : ℕ) (r : ℚ) :
    (rule1 (summary T n e r) && rule3 (summary T n e r)) = false ∧
    (rule1 (summary T n e r) && rule4 (summary T n e r)) = false ∧
    (rule1 (summary T n e r) && rule5 (summary T n e r)) = false ∧
    (rule3 (summary T n e r) && rule4 (summary T n e r)) = false ∧
    (rule3 (summary T n e r) && rule5 (summary T n e r)) = false ∧
    (rule4 (summary T n e r) && rule5 (summary T n e r)) = false ∧
    (rule2 (summary T n e r) && rule3 (summary T n e r)) = false ∧
    (rule2 (summary T n e r) && rule4 (summary T n e r)) = false := by
  have h1 : f32 0.12 < f32 0.13 := by rw [f32_lit012, f32_lit013]; norm_num
  have h2 : f32 0.12 < f32 0.15 := by rw [f32_lit012, f32_lit015]; norm_num
  have e13 : ∀ a b : Bool, (a && b) = false ↔ ¬ (a = true ∧ b = true) := by decide
  simp only [e13, rule1_summary, rule2_summary, rule3_summary, rule4_summary, rule5_summary,
    decide_eq_true_eq]
  refine ⟨by omega, by omega, by omega, by omega, by omega, ?_, by omega, ?_⟩
  · rintro ⟨⟨-, -, ha⟩, -, hb, -⟩
    linarith
  · rintro ⟨⟨-, ha⟩, -, -, hb⟩
    linarith

theorem guardsTrue_le_two (T : FVideoProcessingThread) (n e : ℕ) (r : ℚ) :
    guardsTrue (summary T n e r) ≤ 2 := by
  obtain ⟨h13, h14, h15, h34, h35, h45, h23, h24⟩ := guards_exclusive T n e r
  exact count_guards_le_two _ _ _ _ _ h13 h14 h15 h34 h35 h45 h23 h24

/-- C7, amended.  On every feature summary the guards of rules 1, 3, 4 and 5 are pairwise
exclusive and the guard of rule 2 excludes those of rules 3 and 4.  The guard of rule 2 may
hold together with the guard of rule 1 or with the guard of rule 5 (never with both, as rules
1 and 5 exclude each other), so at most two guards are true, on a summary and after the
feature phase of any call. -/
theorem C7_guards_exclusive_apart_from_rule2 (T : FVideoProcessingThread) (n e : ℕ) (r : ℚ)
    (Eyes Smiles : List Rect) (FaceRect : Rect) :
    ((rule1 (summary T n e r) && rule3 (summary T n e r)) = false ∧
      (rule1 (summary T n e r) && rule4 (summary T n e r)) = false ∧
      (rule1 (summary T n e r) && rule5 (summary T n e r)) = false ∧
      (rule3 (summary T n e r) && rule4 (summary T n e r)) = false ∧
      (rule3 (summary T n e r) && rule5 (summary T n e r)) = false ∧
      (rule4 (summary T n e r) && rule5 (summary T n e r)) = false ∧
      (rule2 (summary T n e r) && rule3 (summary T n e r)) = false ∧
      (rule2 (summary T n e r) && rule4 (summary T n e r)) = false) ∧
    guardsTrue (summary T n e r) ≤ 2 ∧
    guardsTrue (calcFeatures T Eyes Smiles FaceRect) ≤ 2 := by
  refine ⟨guards_exclusive T n e r, guardsTrue_le_two T n e r, ?_⟩
  obtain ⟨T0, h0⟩ := calcFeatures_eq_summary T Eyes Smiles FaceRect
  rw [h0]
  exact guardsTrue_le_two T0 _ _ _

/-! ## C8: an iteration without a frame publishes nothing -/

/-- C8. For every worker state, an iteration of the processing loop in which the device
pointer is null, the device is not opened, the read fails, or the read returns an empty frame
leaves the worker as it was: both published slots (`ProcessedFrame`, `EmotionResults`) are
unchanged and `GetProcessedFrame` and `GetEmotionData` return what they returned before. -/
theorem C8_no_frame_no_publish (cv : OpenCV) (cap : VideoCapture) (T : FVideoProcessingThread)
    (OutFrame : Mat)
    (h : cap.isOpened = false ∨ cap.readOk = false ∨ cap.readFrame.empty = true) :
    RunIteration cv (some cap) T = T ∧
    RunIteration cv none T = T ∧
    (RunIteration cv (some cap) T).ProcessedFrame = T.ProcessedFrame ∧
    (RunIteration cv (some cap) T).EmotionResults = T.EmotionResults ∧
    GetProcessedFrame (RunIteration cv (some cap) T) OutFrame = GetProcessedFrame T OutFrame ∧
    GetEmotionData (RunIteration cv (some cap) T) = GetEmotionData T := by
  have key : RunIteration cv (some cap) T = T := by
    unfold RunIteration
    rcases h with h | h | h
    · simp [h]
    · have : ProcessFrame cv cap T = T := by simp [ProcessFrame, h]
      simp [this]
    · have : ProcessFrame cv cap T = T := by simp [ProcessFrame, h]
      simp [this]
  refine ⟨key, rfl, ?_, ?_, ?_, ?_⟩ <;> rw [key]

/-- C8 at an opened device whose read delivers an empty frame. -/
theorem C8_no_frame_no_publish_witness :
    RunIteration sampleCV (some emptyCapture) (workerWith EFacialEmotion.Happy 1)
      = workerWith EFacialEmotion.Happy 1 ∧
    GetEmotionData (RunIteration sampleCV (some emptyCapture) (workerWith EFacialEmotion.Happy 1))
      = [sampleEstimate EFacialEmotion.Happy 1] :=
  ⟨(C8_no_frame_no_publish sampleCV emptyCapture (workerWith EFacialEmotion.Happy 1) emptyMat
      (Or.inr (Or.inr (by decide)))).1,
   (C8_no_frame_no_publish sampleCV emptyCapture (workerWith EFacialEmotion.Happy 1) emptyMat
      (Or.inr (Or.inr (by decide)))).2.2.2.2.2⟩

/-! ## C9: the published emotion list -/

theorem faceEntry_indep (cv : OpenCV) (G : Mat) (T1 T2 : FVideoProcessingThread) (S : Rect) :
    faceEntry cv G T1 S = faceEntry cv G T2 S := by
  unfold faceEntry
  rw [DetectEmotion_indep cv T1 T2]

theorem keptFaces_nil (G : Mat) : keptFaces G [] = [] := rfl

theorem keptFaces_cons_dropped (G : Mat) (Face : Rect) (Faces : List Rect)
    (h : (ScaledFace G.cols G.rows Face).width ≤ 0 ∨
      (ScaledFace G.cols G.rows Face).height ≤ 0) :
    keptFaces G (Face :: Faces) = keptFaces G Faces := by
  have hn : ¬ (0 < (ScaledFace G.cols G.rows Face).width ∧
      0 < (ScaledFace G.cols G.rows Face).height) := by
    rintro ⟨h1, h2⟩
    rcases h with h | h <;> omega
  simp [keptFaces, List.filter_cons, hn]

theorem keptFaces_cons_kept (G : Mat) (Face : Rect) (Faces : List Rect)
    (h : ¬ ((ScaledFace G.cols G.rows Face).width ≤ 0 ∨
      (ScaledFace G.cols G.rows Face).height ≤ 0)) :
    keptFaces G (Face :: Faces) = ScaledFace G.cols G.rows Face :: keptFaces G Faces := by
  have hp : 0 < (ScaledFace G.cols G.rows Face).width ∧
      0 < (ScaledFace G.cols G.rows Face).height := by
    push_neg at h
    exact h
  simp [keptFaces, List.filter_cons, hp]

/-- The list built by the face loop: one entry per kept face, in detection order, appended to
the list the loop started with. -/
theorem foldl_faceBody_NewEmotions (cv : OpenCV) (G : Mat) (T0 : FVideoProcessingThread)
    (Faces : List Rect) (L : FaceLoop) :
    (Faces.foldl (faceBody cv G) L).NewEmotions
      = L.NewEmotions ++ (keptFaces G Faces).map (faceEntry cv G T0) := by
  induction Faces generalizing L with
  | nil => simp [keptFaces_nil]
  | cons Face Faces ih =>
    rw [List.foldl_cons, ih]
    by_cases h : (ScaledFace G.cols G.rows Face).width ≤ 0 ∨
        (ScaledFace G.cols G.rows Face).height ≤ 0
    · rw [faceBody_dropped cv G L Face h, keptFaces_cons_dropped G Face Faces h]
    · rw [faceBody_kept cv G L Face h, keptFaces_cons_kept G Face Faces h]
      simp only [List.map_cons, List.append_assoc, List.singleton_append]
      rw [faceEntry_indep cv G T0 L.T]
      rfl

theorem ProcessFrame_EmotionResults (cv : OpenCV) (cap : VideoCapture)
    (T T0 : FVideoProcessingThread) (h1 : cap.readOk = true) (h2 : cap.readFrame.empty = false) :
    (ProcessFrame cv cap T).EmotionResults
      = (keptFaces (GrayFrameOf cv cap.readFrame) (FacesOf cv cap.readFrame)).map
          (faceEntry cv (GrayFrameOf cv cap.readFrame) T0) := by
  unfold ProcessFrame
  simp only [h1, h2, Bool.not_true, Bool.false_eq_true, if_false]
  exact (foldl_faceBody_NewEmotions cv (GrayFrameOf cv cap.readFrame) T0
    (FacesOf cv cap.readFrame) _).trans (by simp)

theorem mem_keptFaces {G : Mat} {Faces : List Rect} {S : Rect} (h : S ∈ keptFaces G Faces) :
    0 ≤ S.x ∧ 0 ≤ S.y ∧ S.x + S.width ≤ G.cols ∧ S.y + S.height ≤ G.rows ∧
    0 < S.width ∧ 0 < S.height := by
  simp only [keptFaces, List.mem_filter, List.mem_map, decide_eq_true_eq] at h
  obtain ⟨⟨Face, -, rfl⟩, hw, hh⟩ := h
  obtain ⟨b1, b2, b3, b4⟩ := ScaledFace_bounds G.cols G.rows Face
  exact ⟨b1, b2, b3, b4, hw, hh⟩

/-- The `float` expression `x + w / 2.0f` is exact for a rectangle inside `2 ^ 23` pixels. -/
theorem center_exact (x w : ℤ) (hx : 0 ≤ x) (hw : 0 < w) (hb : x + w ≤ 2 ^ 23) :
    fadd (ofInt x) (fdiv (ofInt w) (f32 2.0)) = x + w / 2 ∧ ofInt w = w := by
  have a1 : ofInt x = x := f32_intCast x (by rw [abs_of_nonneg hx]; omega)
  have a2 : ofInt w = w := f32_intCast w (by rw [abs_of_pos hw]; omega)
  have a3 : fdiv (w : ℚ) 2 = w / 2 := by
    have := f32_dyadic w (-1) (by rw [abs_of_pos hw]; omega)
    unfold fdiv
    have e : (w : ℚ) / 2 = (w : ℚ) * (2 : ℚ) ^ (-1 : ℤ) := by norm_num [div_eq_mul_inv]
    rw [e]
    exact this
  have a4 : fadd (x : ℚ) (w / 2) = x + w / 2 := by
    have := f32_dyadic (2 * x + w) (-1) (by rw [abs_of_nonneg (by omega)]; omega)
    unfold fadd
    have e : ((x : ℚ) + w / 2) = ((2 * x + w : ℤ) : ℚ) * (2 : ℚ) ^ (-1 : ℤ) := by
      push_cast; norm_num; ring
    rw [e]
    exact this
  rw [a1, a2, f32_lit2, a3, a4]
  exact ⟨rfl, rfl⟩

/-- C9. For a successfully captured non-empty frame, the list published by `ProcessFrame`
replaces the previous one wholesale: it is the same whatever the worker held before.  It holds
exactly one estimate per detected face whose clamped rectangle has positive width and height,
in detection order (faces clamped to width or height `≤ 0` contribute nothing).  Each estimate
carries the emotion and confidence of `DetectEmotion` on that face, the centre
`(x + width / 2.0f, y + height / 2.0f)` and the width of the clamped rectangle, computed in
`float`; for frames of at most `2 ^ 23` pixels a side these are exactly
`(x + width / 2, y + height / 2)` and `width`. -/
theorem C9_published_emotion_list (cv : OpenCV) (cap : VideoCapture)
    (T T0 : FVideoProcessingThread) (S : Rect)
    (h1 : cap.readOk = true) (h2 : cap.readFrame.empty = false) :
    (ProcessFrame cv cap T).EmotionResults
      = (keptFaces (GrayFrameOf cv cap.readFrame) (FacesOf cv cap.readFrame)).map
          (faceEntry cv (GrayFrameOf cv cap.readFrame) T) ∧
    (ProcessFrame cv cap T0).EmotionResults = (ProcessFrame cv cap T).EmotionResults ∧
    keptFaces (GrayFrameOf cv cap.readFrame) (FacesOf cv cap.readFrame)
      = ((FacesOf cv cap.readFrame).map
          (ScaledFace (GrayFrameOf cv cap.readFrame).cols (GrayFrameOf cv cap.readFrame).rows)).filter
          (fun R => decide (0 < R.width ∧ 0 < R.height)) ∧
    (faceEntry cv (GrayFrameOf cv cap.readFrame) T S).Emotion
      = (DetectEmotion cv T (cv.roi (GrayFrameOf cv cap.readFrame) S) S).2.1 ∧
    (faceEntry cv (GrayFrameOf cv cap.readFrame) T S).Confidence
      = (DetectEmotion cv T (cv.roi (GrayFrameOf cv cap.readFrame) S) S).2.2 ∧
    (faceEntry cv (GrayFrameOf cv cap.readFrame) T S).FaceCenter
      = (fadd (ofInt S.x) (fdiv (ofInt S.width) (f32 2.0)),
         fadd (ofInt S.y) (fdiv (ofInt S.height) (f32 2.0))) ∧
    (faceEntry cv (GrayFrameOf cv cap.readFrame) T S).FaceSize = ofInt S.width ∧
    (S ∈ keptFaces (GrayFrameOf cv cap.readFrame) (FacesOf cv cap.readFrame) →
      (GrayFrameOf cv cap.readFrame).cols ≤ 2 ^ 23 →
      (GrayFrameOf cv cap.readFrame).rows ≤ 2 ^ 23 →
      (faceEntry cv (GrayFrameOf cv cap.readFrame) T S).FaceCenter
        = ((S.x : ℚ) + S.width / 2, (S.y : ℚ) + S.height / 2) ∧
      (faceEntry cv (GrayFrameOf cv cap.readFrame) T S).FaceSize = S.width) := by
  refine ⟨ProcessFrame_EmotionResults cv cap T T h1 h2, ?_, rfl, rfl, rfl, rfl, rfl, ?_⟩
  · rw [ProcessFrame_EmotionResults cv cap T0 T h1 h2, ProcessFrame_EmotionResults cv cap T T h1 h2]
  · intro hS hc hr
    obtain ⟨b1, b2, b3, b4, b5, b6⟩ := mem_keptFaces hS
    obtain ⟨c1, c2⟩ := center_exact S.x S.width b1 b5 (by omega)
    obtain ⟨c3, -⟩ := center_exact S.y S.height b2 b6 (by omega)
    refine ⟨?_, c2⟩
    show (fadd (ofInt S.x) (fdiv (ofInt S.width) (f32 2.0)),
      fadd (ofInt S.y) (fdiv (ofInt S.height) (f32 2.0))) = _
    rw [c1, c3]

/-- C9 at a frame of 640 by 480 pixels with two detections, the second of which is
clamped away: one estimate is published, for the rectangle `(220, 140, 200, 200)`, with
centre `(320, 240)` and size `200`, whatever was published before. -/
theorem C9_published_emotion_list_witness :
    (ProcessFrame sampleCV sampleCapture (workerWith EFacialEmotion.Happy 1)).EmotionResults
      = (keptFaces (GrayFrameOf sampleCV sampleFrame) (FacesOf sampleCV sampleFrame)).map
          (faceEntry sampleCV (GrayFrameOf sampleCV sampleFrame)
            (workerWith EFacialEmotion.Happy 1)) ∧
    (ProcessFrame sampleCV sampleCapture initialWorker).EmotionResults
      = (ProcessFrame sampleCV sampleCapture (workerWith EFacialEmotion.Happy 1)).EmotionResults ∧
    keptFaces (GrayFrameOf sampleCV sampleFrame) (FacesOf sampleCV sampleFrame) = [face200] ∧
    (faceEntry sampleCV (GrayFrameOf sampleCV sampleFrame) (workerWith EFacialEmotion.Happy 1)
      face200).FaceCenter = ((220 : ℚ) + 200 / 2, (140 : ℚ) + 200 / 2) ∧
    (faceEntry sampleCV (GrayFrameOf sampleCV sampleFrame) (workerWith EFacialEmotion.Happy 1)
      face200).FaceSize = 200 :=
  ⟨(C9_published_emotion_list sampleCV sampleCapture (workerWith EFacialEmotion.Happy 1)
      initialWorker face200 rfl (by decide)).1,
   (C9_published_emotion_list sampleCV sampleCapture (workerWith EFacialEmotion.Happy 1)
      initialWorker face200 rfl (by decide)).2.1,
   by decide,
   ((C9_published_emotion_list sampleCV sampleCapture (workerWith EFacialEmotion.Happy 1)
      initialWorker face200 rfl (by decide)).2.2.2.2.2.2.2 (by decide) (by decide)
      (by decide)).1,
   ((C9_published_emotion_list sampleCV sampleCapture (workerWith EFacialEmotion.Happy 1)
      initialWorker face200 rfl (by decide)).2.2.2.2.2.2.2 (by decide) (by decide)
      (by decide)).2⟩

/-! ## C10: the change notification of `Tick` -/

theorem UpdateTexture_Last (A : AFaceTracker) (Frame : Mat) :
    (UpdateTexture A Frame).LastDetectedEmotion = A.LastDetectedEmotion := by
  unfold UpdateTexture
  split_ifs <;> rfl

theorem pollWorker_Last (A : AFaceTracker) (W : FVideoProcessingThread) :
    (pollWorker A W).LastDetectedEmotion = A.LastDetectedEmotion := by
  unfold pollWorker
  by_cases c : (GetProcessedFrame W emptyMat).1 = true
  · simp only [c, if_true]
    exact UpdateTexture_Last _ _
  · simp only [c, if_false]
    rfl

theorem pollWorker_DetectedEmotions (A : AFaceTracker) (W : FVideoProcessingThread) :
    (pollWorker A W).DetectedEmotions = GetEmotionData W := rfl

/-- What `notifyChange` does, by the list it finds. -/
theorem notifyChange_cases (A : AFaceTracker) :
    (A.DetectedEmotions = [] ∧ (notifyChange A).polled = some [] ∧
      (notifyChange A).OnEmotionDetected = none ∧
      (notifyChange A).A.LastDetectedEmotion = A.LastDetectedEmotion) ∨
    (∃ E Es, A.DetectedEmotions = E :: Es ∧ (notifyChange A).polled = some (E :: Es) ∧
      (notifyChange A).A.LastDetectedEmotion = E.Emotion ∧
      (notifyChange A).OnEmotionDetected
        = if E.Emotion ≠ A.LastDetectedEmotion then some (E.Emotion, E.Confidence) else none) := by
  unfold notifyChange
  cases h : A.DetectedEmotions with
  | nil => left; exact ⟨rfl, rfl, rfl, rfl⟩
  | cons E Es =>
    right
    refine ⟨E, Es, rfl, ?_⟩
    by_cases c : E.Emotion = A.LastDetectedEmotion
    · simp [c]
    · simp [c]

/-- The three ways a call of `Tick` can go, by what it polled. -/
theorem Tick_cases (A : AFaceTracker) (W : FVideoProcessingThread) (dt : ℚ) :
    ((Tick A W dt).polled = none ∧ (Tick A W dt).OnEmotionDetected = none ∧
      (Tick A W dt).A.LastDetectedEmotion = A.LastDetectedEmotion) ∨
    ((Tick A W dt).polled = some [] ∧ GetEmotionData W = [] ∧
      (Tick A W dt).OnEmotionDetected = none ∧
      (Tick A W dt).A.LastDetectedEmotion = A.LastDetectedEmotion) ∨
    (∃ E Es, (Tick A W dt).polled = some (E :: Es) ∧ GetEmotionData W = E :: Es ∧
      (Tick A W dt).A.LastDetectedEmotion = E.Emotion ∧
      (Tick A W dt).OnEmotionDetected
        = if E.Emotion ≠ A.LastDetectedEmotion then some (E.Emotion, E.Confidence) else none) := by
  unfold Tick
  by_cases c1 : (!A.ProcessingThread || A.VideoTexture.isNone) = true
  · left
    rw [if_pos c1]
    exact ⟨rfl, rfl, rfl⟩
  · rw [if_neg c1]
    by_cases c2 : belowUpdateInterval
        { A with TimeSinceLastUpdate := fadd A.TimeSinceLastUpdate dt } = true
    · left
      rw [if_pos c2]
      exact ⟨rfl, rfl, rfl⟩
    · right
      rw [if_neg c2]
      rcases notifyChange_cases
          (pollWorker { A with TimeSinceLastUpdate := fadd A.TimeSinceLastUpdate dt } W) with
        ⟨h0, h1, h2, h3⟩ | ⟨E, Es, h0, h1, h2, h3⟩
      · left
        rw [pollWorker_DetectedEmotions] at h0
        rw [pollWorker_Last] at h3
        exact ⟨h1, h0, h2, h3⟩
      · right
        rw [pollWorker_DetectedEmotions] at h0
        rw [pollWorker_Last] at h3
        exact ⟨E, Es, h1, h0, h2, h3⟩

/-- Calls of `Tick` that poll nothing or poll an empty list keep `LastDetectedEmotion`. -/
theorem Ticks_keep_Last (mid : List (FVideoProcessingThread × ℚ)) (A : AFaceTracker)
    (h : ∀ R ∈ (Ticks A mid).2, R.polled = none ∨ R.polled = some []) :
    (Ticks A mid).1.LastDetectedEmotion = A.LastDetectedEmotion := by
  induction mid generalizing A with
  | nil => rfl
  | cons p rest ih =>
    obtain ⟨W, dt⟩ := p
    have hhead : (Tick A W dt).polled = none ∨ (Tick A W dt).polled = some [] :=
      h (Tick A W dt) (by simp [Ticks])
    have htail : ∀ R ∈ (Ticks (Tick A W dt).A rest).2, R.polled = none ∨ R.polled = some [] := by
      intro R hR
      exact h R (by simp [Ticks, hR])
    have hkeep : (Tick A W dt).A.LastDetectedEmotion = A.LastDetectedEmotion := by
      rcases Tick_cases A W dt with ⟨-, -, h3⟩ | ⟨-, -, -, h3⟩ | ⟨E, Es, h1, -, -, -⟩
      · exact h3
      · exact h3
      · rcases hhead with hh | hh <;> rw [h1] at hh <;> simp at hh
    show (Ticks (Tick A W dt).A rest).1.LastDetectedEmotion = A.LastDetectedEmotion
    rw [ih (Tick A W dt).A htail, hkeep]

/-- C10. For every sequence of `Tick` calls and every two polls that both return a non-empty
emotion list with no non-empty poll between them (calls between them return early or poll an
empty list), `OnEmotionDetected` is raised at the second poll if and only if the emotion of
its first element differs from the emotion of the first element of the earlier poll, and it is
raised with the emotion and confidence of that first element. -/
theorem C10_change_notification (A : AFaceTracker) (W1 W2 : FVideoProcessingThread)
    (dt1 dt2 : ℚ) (mid : List (FVideoProcessingThread × ℚ)) (E1 E2 : FFacialEmotionData)
    (Es1 Es2 : List FFacialEmotionData)
    (h1 : (Tick A W1 dt1).polled = some (E1 :: Es1))
    (hmid : ∀ R ∈ (Ticks (Tick A W1 dt1).A mid).2, R.polled = none ∨ R.polled = some [])
    (h2 : (Tick (Ticks (Tick A W1 dt1).A mid).1 W2 dt2).polled = some (E2 :: Es2)) :
    GetEmotionData W1 = E1 :: Es1 ∧ GetEmotionData W2 = E2 :: Es2 ∧
    (Tick (Ticks (Tick A W1 dt1).A mid).1 W2 dt2).OnEmotionDetected
      = (if E2.Emotion ≠ E1.Emotion then some (E2.Emotion, E2.Confidence) else none) ∧
    ((Tick (Ticks (Tick A W1 dt1).A mid).1 W2 dt2).OnEmotionDetected.isSome = true
      ↔ E2.Emotion ≠ E1.Emotion) := by
  have hA : (Tick A W1 dt1).A.LastDetectedEmotion = E1.Emotion ∧
      GetEmotionData W1 = E1 :: Es1 := by
    rcases Tick_cases A W1 dt1 with ⟨h, -, -⟩ | ⟨h, -, -, -⟩ | ⟨E, Es, h, hW, hL, -⟩
    · rw [h1] at h; simp at h
    · rw [h1] at h; simp at h
    · rw [h1] at h
      simp only [Option.some.injEq, List.cons.injEq] at h
      rw [h.1, h.2]
      exact ⟨hL, hW⟩
  have hB : (Ticks (Tick A W1 dt1).A mid).1.LastDetectedEmotion = E1.Emotion := by
    rw [Ticks_keep_Last mid _ hmid, hA.1]
  have hC : GetEmotionData W2 = E2 :: Es2 ∧
      (Tick (Ticks (Tick A W1 dt1).A mid).1 W2 dt2).OnEmotionDetected
        = (if E2.Emotion ≠ E1.Emotion then some (E2.Emotion, E2.Confidence) else none) := by
    rcases Tick_cases (Ticks (Tick A W1 dt1).A mid).1 W2 dt2 with
      ⟨h, -, -⟩ | ⟨h, -, -, -⟩ | ⟨E, Es, h, hW, -, hO⟩
    · rw [h2] at h; simp at h
    · rw [h2] at h; simp at h
    · rw [h2] at h
      simp only [Option.some.injEq, List.cons.injEq] at h
      rw [h.1, h.2, hO, hB]
      exact ⟨hW, rfl⟩
  refine ⟨hA.2, hC.1, hC.2, ?_⟩
  rw [hC.2]
  by_cases c : E2.Emotion = E1.Emotion
  · simp [c]
  · simp [c]

theorem f32_one : f32 1 = 1 := by simpa using f32_intCast 1 (by norm_num)

theorem f32_half : f32 (1 / 2) = 1 / 2 := by
  have h := f32_dyadic 1 (-1) (by norm_num)
  norm_num at h ⊢
  exact h

/-- The first call on `sampleTracker`, one second after start: it polls the Happy estimate. -/
theorem Tick_sample_first :
    Tick sampleTracker (workerWith EFacialEmotion.Happy (7 / 10)) 1
      = ⟨{ sampleTracker with
            DetectedEmotions := [sampleEstimate EFacialEmotion.Happy (7 / 10)]
            LastDetectedEmotion := EFacialEmotion.Happy },
         some [sampleEstimate EFacialEmotion.Happy (7 / 10)],
         some (EFacialEmotion.Happy, 7 / 10)⟩ := by
  simp [Tick, sampleTracker, belowUpdateInterval, fadd, fdiv, ofInt, f32_one, f32_lit1, f32_lit0,
    notifyChange, pollWorker, workerWith, GetEmotionData, GetProcessedFrame, initialWorker,
    emptyMat, Mat.empty, UpdateTexture, sampleEstimate]

/-- A call half a second later returns before polling. -/
theorem Tick_sample_mid :
    Tick { sampleTracker with
            DetectedEmotions := [sampleEstimate EFacialEmotion.Happy (7 / 10)]
            LastDetectedEmotion := EFacialEmotion.Happy }
        (workerWith EFacialEmotion.Sad (1 / 2)) (1 / 2)
      = ⟨{ sampleTracker with
            TimeSinceLastUpdate := 1 / 2
            DetectedEmotions := [sampleEstimate EFacialEmotion.Happy (7 / 10)]
            LastDetectedEmotion := EFacialEmotion.Happy }, none, none⟩ := by
  have e : f32 (2⁻¹ : ℚ) = 2⁻¹ := by simpa using f32_half
  have e1 : ¬ ((1 : ℚ) ≤ 2⁻¹) := by norm_num
  simp [Tick, sampleTracker, belowUpdateInterval, fadd, fdiv, ofInt, f32_one, f32_lit1, e, e1]

/-- A call another half second later polls the Sad estimate. -/
theorem Tick_sample_second :
    (Tick { sampleTracker with
            TimeSinceLastUpdate := 1 / 2
            DetectedEmotions := [sampleEstimate EFacialEmotion.Happy (7 / 10)]
            LastDetectedEmotion := EFacialEmotion.Happy }
        (workerWith EFacialEmotion.Sad (1 / 2)) (1 / 2)).polled
      = some [sampleEstimate EFacialEmotion.Sad (1 / 2)] := by
  have e : (2⁻¹ : ℚ) + 2⁻¹ = 1 := by norm_num
  simp [Tick, sampleTracker, belowUpdateInterval, fadd, fdiv, ofInt, f32_one, f32_lit1, f32_lit0,
    notifyChange, pollWorker, workerWith, GetEmotionData, GetProcessedFrame, initialWorker,
    emptyMat, Mat.empty, UpdateTexture, sampleEstimate, e]

/-- C10 at a poll that returns a Happy estimate, a call that returns early, and a poll that
returns a Sad estimate with confidence `1/2`: the event is raised with Sad and `1/2`. -/
theorem C10_change_notification_witness :
    (Tick (Ticks (Tick sampleTracker (workerWith EFacialEmotion.Happy (7 / 10)) 1).A
        [(workerWith EFacialEmotion.Sad (1 / 2), 1 / 2)]).1
      (workerWith EFacialEmotion.Sad (1 / 2)) (1 / 2)).OnEmotionDetected
      = (if (sampleEstimate EFacialEmotion.Sad (1 / 2)).Emotion
            ≠ (sampleEstimate EFacialEmotion.Happy (7 / 10)).Emotion
          then some ((sampleEstimate EFacialEmotion.Sad (1 / 2)).Emotion,
            (sampleEstimate EFacialEmotion.Sad (1 / 2)).Confidence)
          else none) :=
  (C10_change_notification sampleTracker (workerWith EFacialEmotion.Happy (7 / 10))
    (workerWith EFacialEmotion.Sad (1 / 2)) 1 (1 / 2)
    [(workerWith EFacialEmotion.Sad (1 / 2), 1 / 2)]
    (sampleEstimate EFacialEmotion.Happy (7 / 10)) (sampleEstimate EFacialEmotion.Sad (1 / 2))
    [] []
    (by rw [Tick_sample_first])
    (by simp only [Ticks, Tick_sample_first, Tick_sample_mid, List.mem_singleton, forall_eq,
      true_or])
    (by simp only [Ticks, Tick_sample_first, Tick_sample_mid]; exact Tick_sample_second)).2.2.1

/-! ## C11: the smile search rectangle -/

theorem LowerFaceRect_eq (FaceROI : Mat) (h : 0 ≤ FaceROI.rows) :
    LowerFaceRect FaceROI = ⟨0, FaceROI.rows / 2, FaceROI.cols, FaceROI.rows / 2⟩ := by
  unfold LowerFaceRect
  rw [Int.tdiv_eq_ediv h (by norm_num)]

/-- A face region cut from a frame of even height has even height. -/
theorem ScaledFace_height_even (cols rows : ℤ) (Face : Rect) (h : rows % 2 = 0) :
    (ScaledFace cols rows Face).height % 2 = 0 := by
  simp only [ScaledFace, FMath.Max, FMath.Min]
  split_ifs <;> omega

/-- C11, as stated, fails.  For the face region of 100 by 101 pixels (the clamped rectangle
of the detection `(100, 190, 50, 60)` in a frame of 640 by 481 pixels) the search rectangle
is `(0, 50, 100, 50)`: it ends at row 100 and leaves the last row of the region out. -/
theorem C11_last_row_left_out :
    ScaledFace 640 481 ⟨100, 190, 50, 60⟩ = ⟨200, 380, 100, 101⟩ ∧
    LowerFaceRect oddFaceROI = ⟨0, 50, 100, 50⟩ ∧
    (LowerFaceRect oddFaceROI).y + (LowerFaceRect oddFaceROI).height = 100 ∧
    (LowerFaceRect oddFaceROI).y + (LowerFaceRect oddFaceROI).height ≠ oddFaceROI.rows := by
  decide

/-- C11, amended.  For every face region of height `h ≥ 1` and width `w` the smile search
rectangle of `DetectEmotion` starts at row `⌊h / 2⌋`, spans the full width `w`, has height
`⌊h / 2⌋` and lies inside the face region.  Its bottom edge `y + height` is `h` when `h` is
even and `h - 1` when `h` is odd.  A face region cut from a frame of even height has even
height. -/
theorem C11_LowerFaceRect_lower_half (FaceROI : Mat) (cols rows : ℤ) (Face : Rect)
    (h : 1 ≤ FaceROI.rows) :
    (LowerFaceRect FaceROI).x = 0 ∧
    (LowerFaceRect FaceROI).y = FaceROI.rows / 2 ∧
    (LowerFaceRect FaceROI).width = FaceROI.cols ∧
    (LowerFaceRect FaceROI).height = FaceROI.rows / 2 ∧
    (0 ≤ (LowerFaceRect FaceROI).x ∧ 0 ≤ (LowerFaceRect FaceROI).y ∧
      (LowerFaceRect FaceROI).x + (LowerFaceRect FaceROI).width ≤ FaceROI.cols ∧
      (LowerFaceRect FaceROI).y + (LowerFaceRect FaceROI).height ≤ FaceROI.rows) ∧
    (LowerFaceRect FaceROI).y + (LowerFaceRect FaceROI).height
      = FaceROI.rows - FaceROI.rows % 2 ∧
    (FaceROI.rows % 2 = 0 →
      (LowerFaceRect FaceROI).y + (LowerFaceRect FaceROI).height = FaceROI.rows) ∧
    (FaceROI.rows % 2 = 1 →
      (LowerFaceRect FaceROI).y + (LowerFaceRect FaceROI).height = FaceROI.rows - 1) ∧
    (rows % 2 = 0 → (ScaledFace cols rows Face).height % 2 = 0) := by
  rw [LowerFaceRect_eq FaceROI (by omega)]
  refine ⟨rfl, rfl, rfl, rfl, ⟨le_refl 0, ?_, ?_, ?_⟩, ?_, ?_, ?_, ?_⟩
  · show 0 ≤ FaceROI.rows / 2
    omega
  · show 0 + FaceROI.cols ≤ FaceROI.cols
    omega
  · show FaceROI.rows / 2 + FaceROI.rows / 2 ≤ FaceROI.rows
    omega
  · show FaceROI.rows / 2 + FaceROI.rows / 2 = FaceROI.rows - FaceROI.rows % 2
    omega
  · intro he
    show FaceROI.rows / 2 + FaceROI.rows / 2 = FaceROI.rows
    omega
  · intro ho
    show FaceROI.rows / 2 + FaceROI.rows / 2 = FaceROI.rows - 1
    omega
  · exact ScaledFace_height_even cols rows Face

/-- C11 at a face region of 200 by 200 pixels (even height: the search rectangle
`(0, 100, 200, 100)` ends at the last row) and at the region of 100 by 101 pixels (odd height:
it ends one row earlier). -/
theorem C11_LowerFaceRect_lower_half_witness :
    (LowerFaceRect evenFaceROI).y = evenFaceROI.rows / 2 ∧
    (LowerFaceRect evenFaceROI).y + (LowerFaceRect evenFaceROI).height = evenFaceROI.rows ∧
    (LowerFaceRect oddFaceROI).y + (LowerFaceRect oddFaceROI).height = oddFaceROI.rows - 1 ∧
    (ScaledFace 640 480 ⟨100, 190, 50, 60⟩).height % 2 = 0 :=
  ⟨(C11_LowerFaceRect_lower_half evenFaceROI 640 480 ⟨100, 190, 50, 60⟩ (by decide)).2.1,
   (C11_LowerFaceRect_lower_half evenFaceROI 640 480 ⟨100, 190, 50, 60⟩
      (by decide)).2.2.2.2.2.2.1 (by decide),
   (C11_LowerFaceRect_lower_half oddFaceROI 640 480 ⟨100, 190, 50, 60⟩
      (by decide)).2.2.2.2.2.2.2.1 (by decide),
   (C11_LowerFaceRect_lower_half evenFaceROI 640 480 ⟨100, 190, 50, 60⟩
      (by decide)).2.2.2.2.2.2.2.2 (by decide)⟩

/-! ## C12: when the result is Neutral or Fearful -/

/-- The emotion of `classify` on a summary, by cases. -/
theorem classify_label (T : FVideoProcessingThread) (n e : ℕ) (r : ℚ) :
    (classify (summary T n e r)).1 =
      if 1 ≤ n then EFacialEmotion.Happy
      else if 2 ≤ e ∧ f32 0.15 < r then EFacialEmotion.Surprised
      else if e ≤ 1 ∧ n = 0 then EFacialEmotion.Angry
      else if 2 ≤ e ∧ n = 0 ∧ r < f32 0.12 then EFacialEmotion.Sad
      else if 2 ≤ e ∧ f32 0.13 < r ∧ n = 0 then EFacialEmotion.Fearful
      else EFacialEmotion.Neutral := by
  rw [classify_summary]
  split_ifs <;> rfl

theorem Neutral_iff (T : FVideoProcessingThread) (n e : ℕ) (r : ℚ) :
    (classify (summary T n e r)).1 = EFacialEmotion.Neutral
      ↔ n = 0 ∧ 2 ≤ e ∧ f32 0.12 ≤ r ∧ r ≤ f32 0.13 := by
  have h1 : f32 0.13 < f32 0.15 := by rw [f32_lit013, f32_lit015]; norm_num
  rw [classify_label]
  constructor
  · intro h
    split_ifs at h with c1 c2 c3 c4 c5
    have hn : n = 0 := by omega
    have he : 2 ≤ e := by
      by_contra hc
      exact c3 ⟨by omega, hn⟩
    refine ⟨hn, he, ?_, ?_⟩
    · by_contra hc
      exact c4 ⟨he, hn, not_le.mp hc⟩
    · by_contra hc
      exact c5 ⟨he, not_le.mp hc, hn⟩
  · rintro ⟨hn, he, h12, h13⟩
    rw [if_neg (by omega), if_neg (by rintro ⟨-, hc⟩; linarith), if_neg (by omega),
      if_neg (by rintro ⟨-, -, hc⟩; linarith), if_neg (by rintro ⟨-, hc, -⟩; linarith)]

theorem Fearful_iff (T : FVideoProcessingThread) (n e : ℕ) (r : ℚ) :
    (classify (summary T n e r)).1 = EFacialEmotion.Fearful
      ↔ n = 0 ∧ 2 ≤ e ∧ f32 0.13 < r ∧ r ≤ f32 0.15 := by
  have h1 : f32 0.12 < f32 0.13 := by rw [f32_lit012, f32_lit013]; norm_num
  rw [classify_label]
  constructor
  · intro h
    split_ifs at h with c1 c2 c3 c4 c5
    obtain ⟨he, h13, hn⟩ := c5
    refine ⟨hn, he, h13, ?_⟩
    by_contra hc
    exact c2 ⟨he, not_le.mp hc⟩
  · rintro ⟨hn, he, h13, h15⟩
    rw [if_neg (by omega), if_neg (by rintro ⟨-, hc⟩; linarith), if_neg (by omega),
      if_neg (by rintro ⟨-, -, hc⟩; linarith), if_pos ⟨he, h13, hn⟩]

theorem classify_conf_of_label (T : FVideoProcessingThread) (n e : ℕ) (r : ℚ) :
    ((classify (summary T n e r)).1 = EFacialEmotion.Neutral →
      (classify (summary T n e r)).2 = f32 0.6) ∧
    ((classify (summary T n e r)).1 = EFacialEmotion.Fearful →
      (classify (summary T n e r)).2 = 1 / 2) := by
  rw [classify_summary]
  split_ifs <;> simp

theorem few_eyes_label (T : FVideoProcessingThread) (n e : ℕ) (r : ℚ) (he : e < 2) :
    (classify (summary T n e r)).1 = EFacialEmotion.Happy ∨
    (classify (summary T n e r)).1 = EFacialEmotion.Angry := by
  rw [classify_label]
  by_cases c1 : 1 ≤ n
  · left; rw [if_pos c1]
  · right
    rw [if_neg c1, if_neg (by omega), if_pos ⟨by omega, by omega⟩]

/-- C12. `DetectEmotion` returns Neutral if and only if there is no smile detection, there are
at least two eye detections and `0.12f ≤ RelativeEyeSize ≤ 0.13f`, and then with the confidence
`0.6f`; it returns Fearful if and only if there is no smile detection, there are at least two
eye detections and `0.13f < RelativeEyeSize ≤ 0.15f`, and then with the confidence
`0.5f = 1/2`.  A face with fewer than two detected eyes is classified Happy or Angry, never
Neutral, Sad, Fearful or Surprised. -/
theorem C12_Neutral_and_Fearful_regions (T : FVideoProcessingThread) (n e : ℕ) (r : ℚ)
    (Eyes Smiles : List Rect) (FaceRect : Rect) :
    ((classify (summary T n e r)).1 = EFacialEmotion.Neutral
      ↔ n = 0 ∧ 2 ≤ e ∧ f32 0.12 ≤ r ∧ r ≤ f32 0.13) ∧
    (classify (summary T n e r) = (EFacialEmotion.Neutral, f32 0.6)
      ↔ n = 0 ∧ 2 ≤ e ∧ f32 0.12 ≤ r ∧ r ≤ f32 0.13) ∧
    ((classify (summary T n e r)).1 = EFacialEmotion.Fearful
      ↔ n = 0 ∧ 2 ≤ e ∧ f32 0.13 < r ∧ r ≤ f32 0.15) ∧
    (classify (summary T n e r) = (EFacialEmotion.Fearful, f32 0.5)
      ↔ n = 0 ∧ 2 ≤ e ∧ f32 0.13 < r ∧ r ≤ f32 0.15) ∧
    ((DetectEmotionFrom T Eyes Smiles FaceRect).2 = (EFacialEmotion.Neutral, f32 0.6)
      ↔ Smiles.length = 0 ∧ 2 ≤ Eyes.length ∧ f32 0.12 ≤ relativeEyeSize Eyes FaceRect ∧
        relativeEyeSize Eyes FaceRect ≤ f32 0.13) ∧
    ((DetectEmotionFrom T Eyes Smiles FaceRect).2 = (EFacialEmotion.Fearful, f32 0.5)
      ↔ Smiles.length = 0 ∧ 2 ≤ Eyes.length ∧ f32 0.13 < relativeEyeSize Eyes FaceRect ∧
        relativeEyeSize Eyes FaceRect ≤ f32 0.15) ∧
    (e < 2 →
      ((classify (summary T n e r)).1 = EFacialEmotion.Happy ∨
        (classify (summary T n e r)).1 = EFacialEmotion.Angry) ∧
      (classify (summary T n e r)).1 ≠ EFacialEmotion.Neutral ∧
      (classify (summary T n e r)).1 ≠ EFacialEmotion.Sad ∧
      (classify (summary T n e r)).1 ≠ EFacialEmotion.Fearful ∧
      (classify (summary T n e r)).1 ≠ EFacialEmotion.Surprised) ∧
    (Eyes.length < 2 →
      (DetectEmotionFrom T Eyes Smiles FaceRect).2.1 ≠ EFacialEmotion.Neutral ∧
      (DetectEmotionFrom T Eyes Smiles FaceRect).2.1 ≠ EFacialEmotion.Sad ∧
      (DetectEmotionFrom T Eyes Smiles FaceRect).2.1 ≠ EFacialEmotion.Fearful ∧
      (DetectEmotionFrom T Eyes Smiles FaceRect).2.1 ≠ EFacialEmotion.Surprised) ∧
    f32 0.5 = 1 / 2 := by
  have pairN : ∀ (n e : ℕ) (r : ℚ), classify (summary T n e r) = (EFacialEmotion.Neutral, f32 0.6)
      ↔ n = 0 ∧ 2 ≤ e ∧ f32 0.12 ≤ r ∧ r ≤ f32 0.13 := by
    intro n e r
    rw [← Neutral_iff T n e r]
    constructor
    · intro h; rw [h]
    · intro h
      exact Prod.ext h ((classify_conf_of_label T n e r).1 h)
  have pairF : ∀ (n e : ℕ) (r : ℚ), classify (summary T n e r) = (EFacialEmotion.Fearful, f32 0.5)
      ↔ n = 0 ∧ 2 ≤ e ∧ f32 0.13 < r ∧ r ≤ f32 0.15 := by
    intro n e r
    rw [← Fearful_iff T n e r, f32_lit05]
    constructor
    · intro h; rw [h]
    · intro h
      exact Prod.ext h ((classify_conf_of_label T n e r).2 h)
  have few : ∀ (n e : ℕ) (r : ℚ), e < 2 →
      (classify (summary T n e r)).1 ≠ EFacialEmotion.Neutral ∧
      (classify (summary T n e r)).1 ≠ EFacialEmotion.Sad ∧
      (classify (summary T n e r)).1 ≠ EFacialEmotion.Fearful ∧
      (classify (summary T n e r)).1 ≠ EFacialEmotion.Surprised := by
    intro n e r he
    rcases few_eyes_label T n e r he with h | h <;> rw [h] <;> decide
  refine ⟨Neutral_iff T n e r, pairN n e r, Fearful_iff T n e r, pairF n e r, ?_, ?_, ?_, ?_,
    f32_lit05⟩
  · rw [DetectEmotionFrom_eq T Eyes Smiles FaceRect T]
    exact pairN _ _ _
  · rw [DetectEmotionFrom_eq T Eyes Smiles FaceRect T]
    exact pairF _ _ _
  · intro he
    exact ⟨few_eyes_label T n e r he, few n e r he⟩
  · intro he
    rw [DetectEmotionFrom_eq T Eyes Smiles FaceRect T]
    exact few _ _ _ he

/-- C12 at one eye detection and no smile detection: the result is Happy or Angry and not
Neutral. -/
theorem C12_Neutral_and_Fearful_regions_witness :
    ((classify (summary initialWorker 0 1 (1 / 8))).1 = EFacialEmotion.Happy ∨
      (classify (summary initialWorker 0 1 (1 / 8))).1 = EFacialEmotion.Angry) ∧
    (DetectEmotionFrom initialWorker [⟨40, 50, 30, 30⟩] [] face200).2.1
      ≠ EFacialEmotion.Neutral :=
  ⟨((C12_Neutral_and_Fearful_regions initialWorker 0 1 (1 / 8) [⟨40, 50, 30, 30⟩] [] face200
      ).2.2.2.2.2.2.1 (by decide)).1,
   ((C12_Neutral_and_Fearful_regions initialWorker 0 1 (1 / 8) [⟨40, 50, 30, 30⟩] [] face200
      ).2.2.2.2.2.2.2.1 (by decide)).1⟩

/-! ## C13: the clamp as an intersection with the frame -/

theorem ScaledFace_eq_clampRect (cols rows : ℤ) (Face : Rect) :
    ScaledFace cols rows Face = clampRect cols rows (doubled Face) := rfl

/-- For a detection with non-negative origin the clamped rectangle is the intersection of
the doubled detection with the frame. -/
theorem ScaledFace_eq_inter (cols rows : ℤ) (Face : Rect) (hx : 0 ≤ Face.x) (hy : 0 ≤ Face.y) :
    ScaledFace cols rows Face = (doubled Face).inter (frameRect cols rows) := by
  simp only [ScaledFace, doubled, frameRect, Rect.inter, FMath.Max, FMath.Min, Rect.mk.injEq]
  refine ⟨?_, ?_, ?_, ?_⟩ <;> split_ifs <;> omega

/-- The pixels of the intersection are the pixels of both rectangles. -/
theorem contains_inter (A B : Rect) (px py : ℤ) :
    (A.inter B).contains px py ↔ A.contains px py ∧ B.contains px py := by
  simp only [Rect.contains, Rect.inter]
  omega

/-- A rectangle has no pixel exactly when its width or height is not positive. -/
theorem isEmpty_iff (R : Rect) : R.isEmpty ↔ ¬ ∃ px py, R.contains px py := by
  unfold Rect.isEmpty Rect.contains
  constructor
  · rintro h ⟨px, py, h1, h2, h3, h4⟩
    omega
  · intro h
    by_contra hc
    push_neg at hc
    exact h ⟨R.x, R.y, le_refl _, by omega, le_refl _, by omega⟩

/-- The clamp leaves a rectangle inside the frame as it is. -/
theorem clampRect_of_inside (cols rows : ℤ) (S : Rect) (h : S.inside cols rows) :
    clampRect cols rows S = S := by
  obtain ⟨h1, h2, h3, h4⟩ := h
  cases S with
  | mk x y w ht =>
    simp only [clampRect, FMath.Max, FMath.Min, Rect.mk.injEq] at h1 h2 h3 h4 ⊢
    refine ⟨?_, ?_, ?_, ?_⟩ <;> split_ifs <;> omega

/-- Applying the clamp twice is applying it once. -/
theorem clampRect_idem (cols rows : ℤ) (S : Rect) :
    clampRect cols rows (clampRect cols rows S) = clampRect cols rows S := by
  cases S with
  | mk x y w ht =>
    simp only [clampRect, FMath.Max, FMath.Min, Rect.mk.injEq]
    refine ⟨?_, ?_, ?_, ?_⟩ <;> split_ifs <;> omega

/-- C13. For every detected face rectangle with non-negative origin and every frame, the
rectangle `ScaledFace` left by the clamp of `ProcessFrame` is the intersection of the doubled
rectangle with the frame rectangle `(0, 0, cols, rows)`: the same rectangle and the same
pixels.  The loop drops the face exactly when that intersection is empty: then nothing is
added, otherwise one estimate is added.  A doubled rectangle that lies inside the frame is
left unchanged by the clamp (and is processed when its width and height are positive), and
clamping a clamped rectangle again changes nothing. -/
theorem C13_clamp_is_intersection (cv : OpenCV) (G : Mat) (L : FaceLoop) (Face : Rect)
    (px py : ℤ) (hx : 0 ≤ Face.x) (hy : 0 ≤ Face.y) :
    ScaledFace G.cols G.rows Face = (doubled Face).inter (frameRect G.cols G.rows) ∧
    ((ScaledFace G.cols G.rows Face).contains px py
      ↔ (doubled Face).contains px py ∧ (frameRect G.cols G.rows).contains px py) ∧
    (((ScaledFace G.cols G.rows Face).width ≤ 0 ∨ (ScaledFace G.cols G.rows Face).height ≤ 0)
      ↔ ((doubled Face).inter (frameRect G.cols G.rows)).isEmpty) ∧
    (((doubled Face).inter (frameRect G.cols G.rows)).isEmpty
      ↔ ¬ ∃ qx qy, (doubled Face).contains qx qy ∧ (frameRect G.cols G.rows).contains qx qy) ∧
    ((((doubled Face).inter (frameRect G.cols G.rows)).isEmpty ∧ faceBody cv G L Face = L) ∨
      (¬ ((doubled Face).inter (frameRect G.cols G.rows)).isEmpty ∧
        (faceBody cv G L Face).NewEmotions.length = L.NewEmotions.length + 1)) ∧
    ((doubled Face).inside G.cols G.rows →
      ScaledFace G.cols G.rows Face = doubled Face ∧
      (0 < Face.width → 0 < Face.height →
        (faceBody cv G L Face).NewEmotions.length = L.NewEmotions.length + 1)) ∧
    ScaledFace G.cols G.rows Face = clampRect G.cols G.rows (doubled Face) ∧
    clampRect G.cols G.rows (clampRect G.cols G.rows (doubled Face))
      = clampRect G.cols G.rows (doubled Face) := by
  have hI := ScaledFace_eq_inter G.cols G.rows Face hx hy
  have hE : ((ScaledFace G.cols G.rows Face).width ≤ 0 ∨
      (ScaledFace G.cols G.rows Face).height ≤ 0)
      ↔ ((doubled Face).inter (frameRect G.cols G.rows)).isEmpty := by
    rw [← hI]
    rfl
  have hP : ((doubled Face).inter (frameRect G.cols G.rows)).isEmpty
      ↔ ¬ ∃ qx qy, (doubled Face).contains qx qy ∧ (frameRect G.cols G.rows).contains qx qy := by
    rw [isEmpty_iff]
    simp only [contains_inter]
  refine ⟨hI, ?_, hE, hP, ?_, ?_, rfl, clampRect_idem _ _ _⟩
  · rw [hI]
    exact contains_inter _ _ px py
  · by_cases h : (ScaledFace G.cols G.rows Face).width ≤ 0 ∨
        (ScaledFace G.cols G.rows Face).height ≤ 0
    · exact Or.inl ⟨hE.mp h, faceBody_dropped cv G L Face h⟩
    · right
      refine ⟨fun hc => h (hE.mpr hc), ?_⟩
      rw [faceBody_kept cv G L Face h]
      simp
  · intro hin
    have hS : ScaledFace G.cols G.rows Face = doubled Face := by
      rw [ScaledFace_eq_clampRect]
      exact clampRect_of_inside _ _ _ hin
    refine ⟨hS, ?_⟩
    intro hw hh
    have hk : ¬ ((ScaledFace G.cols G.rows Face).width ≤ 0 ∨
        (ScaledFace G.cols G.rows Face).height ≤ 0) := by
      rw [hS]
      simp only [doubled]
      omega
    rw [faceBody_kept cv G L Face hk]
    simp

/-- C13 at a frame of 640 by 480 pixels: the detection `(110, 70, 100, 100)` doubles to a
rectangle inside the frame, which is left unchanged and processed; the detection
`(300, 200, 50, 60)` doubles to `(600, 400, 100, 120)` and is cut to `(600, 400, 40, 80)`. -/
theorem C13_clamp_is_intersection_witness :
    ScaledFace sampleFrame.cols sampleFrame.rows ⟨110, 70, 100, 100⟩
      = doubled ⟨110, 70, 100, 100⟩ ∧
    (faceBody sampleCV sampleFrame sampleLoop ⟨110, 70, 100, 100⟩).NewEmotions.length
      = sampleLoop.NewEmotions.length + 1 ∧
    ScaledFace sampleFrame.cols sampleFrame.rows ⟨300, 200, 50, 60⟩
      = (doubled ⟨300, 200, 50, 60⟩).inter (frameRect sampleFrame.cols sampleFrame.rows) ∧
    (doubled ⟨300, 200, 50, 60⟩).inter (frameRect sampleFrame.cols sampleFrame.rows)
      = ⟨600, 400, 40, 80⟩ :=
  ⟨((C13_clamp_is_intersection sampleCV sampleFrame sampleLoop ⟨110, 70, 100, 100⟩ 300 200
      (by decide) (by decide)).2.2.2.2.2.1 (by decide)).1,
   ((C13_clamp_is_intersection sampleCV sampleFrame sampleLoop ⟨110, 70, 100, 100⟩ 300 200
      (by decide) (by decide)).2.2.2.2.2.1 (by decide)).2 (by decide) (by decide),
   (C13_clamp_is_intersection sampleCV sampleFrame sampleLoop ⟨300, 200, 50, 60⟩ 300 200
      (by decide) (by decide)).1,
   by decide⟩

end FaceTracker
